import Mathlib

/-!
# VetCare client: session manager and router

A shallow embedding of `src/js/auth.js` (class `AuthService`),
`src/js/router.js` (class `Router`) and the cart functions of
`src/js/dashboardCustomer.js`.

* JavaScript values that the two classes handle are embedded as `JVal`
  (primitives and flat records; the numbers in them are safe integers).
* `localStorage` is a function from keys to optional strings; a write may be
  rejected by the store, and `setItem` then throws.
* Everything the classes obtain from the browser or the network (the clock,
  `JSON.parse`, `JSON.stringify`, `fetch`, whether the store accepts a write)
  is a field of `Env`.
* Cart quantities are JavaScript numbers with an integer value, `NaN` or an
  infinity; their sum rounds as the sum of doubles does.
* Observable effects (`window.location.href = ...`, history mutation,
  notifications, timers, remote calls) are recorded as lists of `Event`s.
-/

namespace VetCare

/-! ## JavaScript values -/

/-- An integer that a JavaScript number holds exactly: a safe integer, of
magnitude below `2^53`. -/
abbrev SafeInt := { n : Int // -9007199254740991 ≤ n ∧ n ≤ 9007199254740991 }

/-- The safe integer `n`, when `n` is in the range. -/
def SafeInt.ofInt? (n : Int) : Option SafeInt :=
  if h : -9007199254740991 ≤ n ∧ n ≤ 9007199254740991 then some ⟨n, h⟩ else none

/-- Primitive JavaScript values; the numbers are the safe integers. -/
inductive Prim where
  | undefined
  | null
  | bool (b : Bool)
  | num (n : SafeInt)
  | str (s : String)
  deriving DecidableEq, Repr

/-- A record: the own properties of a plain object, in insertion order. -/
abbrev JObj := List (String × Prim)

/-- The values held in `currentUser`, returned by `JSON.parse` and found in
remote response bodies: a primitive or a flat record. -/
inductive JVal where
  | prim (p : Prim)
  | obj (fields : JObj)
  deriving DecidableEq, Repr

/-- Property read `o[k]` on a record; a missing property reads `undefined`. -/
def JObj.get : JObj → String → Prim
  | [], _ => Prim.undefined
  | (k, v) :: rest, key => if k = key then v else JObj.get rest key

/-- Does the record have the own property `key`. -/
def JObj.has : JObj → String → Bool
  | [], _ => false
  | (k, _) :: rest, key => if k = key then true else JObj.has rest key

/-- Overwrite every entry for `key` with `v`. -/
def JObj.replace : JObj → String → Prim → JObj
  | [], _, _ => []
  | (k, w) :: rest, key, v =>
    (k, if k = key then v else w) :: JObj.replace rest key v

/-- Property write `o[k] = v`: an existing property keeps its position, a new
one is appended. -/
def JObj.set (o : JObj) (key : String) (v : Prim) : JObj :=
  if o.has key then o.replace key v else o ++ [(key, v)]

/-- Object spread `{ ...o, k1: v1, ..., kn: vn }`. -/
def JObj.spread (o : JObj) (extra : List (String × Prim)) : JObj :=
  extra.foldl (fun acc kv => acc.set kv.1 kv.2) o

/-- Property read `v.k`, as an optional result: `none` is the `TypeError`
raised when `v` is `null` or `undefined`; on any other primitive the read
gives `undefined`. -/
def JVal.getProp : JVal → String → Option Prim
  | .prim .null, _ => none
  | .prim .undefined, _ => none
  | .prim _, _ => some Prim.undefined
  | .obj o, k => some (o.get k)

/-- Optional chaining `v?.k`. -/
def JVal.getPropOpt : JVal → String → Prim
  | .prim _, _ => Prim.undefined
  | .obj o, k => o.get k

/-- Truthiness of a value in a boolean context. -/
def JVal.truthy : JVal → Bool
  | .prim .undefined => false
  | .prim .null => false
  | .prim (.bool b) => b
  | .prim (.num n) => n.val != 0
  | .prim (.str s) => s != ""
  | .obj _ => true

/-- String conversion `String(p)`, as applied by template literals and by
`localStorage.setItem` to its value argument. -/
def Prim.toStr : Prim → String
  | .undefined => "undefined"
  | .null => "null"
  | .bool true => "true"
  | .bool false => "false"
  | .num n => toString n.val
  | .str s => s

/-- The own properties copied by an object spread `{ ...v }`. -/
def JVal.ownFields : JVal → JObj
  | .obj o => o
  | .prim _ => []

/-- The JavaScript value `null`. -/
abbrev JVal.null : JVal := .prim .null

/-! ## Persisted client storage -/

/-- The contents of `localStorage`: `getItem` returns `null` (here `none`) for
a key that is not stored. -/
abbrev Storage := String → Option String

/-- Storage with no key stored. -/
def Storage.empty : Storage := fun _ => none

/-- Read `localStorage.getItem(key)`. -/
def Storage.getItem (s : Storage) (key : String) : Option String := s key

/-- The contents after `value` is stored under `key`. -/
def Storage.insert (s : Storage) (key value : String) : Storage :=
  fun k => if k = key then some value else s k

/-- Write `localStorage.setItem(key, value)` on a store that accepts the
writes for which `accepts` holds: `none` is the exception that `setItem`
throws for a write that is not accepted (`QuotaExceededError` on a full
store), and the contents are then as before. -/
def Storage.setItem (s : Storage) (accepts : Storage → String → String → Bool)
    (key value : String) : Option Storage :=
  if accepts s key value then some (s.insert key value) else none

/-- Delete `localStorage.removeItem(key)`. -/
def Storage.removeItem (s : Storage) (key : String) : Storage :=
  fun k => if k = key then none else s k

/-! ## Environment -/

/-- Outcome of a `POST` through `fetch`. -/
inductive PostResponse where
  /-- The `fetch` promise rejects (network error). -/
  | networkError
  /-- The promise resolves: `response.ok`, and the result of `response.json()`
  (`none` when the body is not JSON and `json()` rejects). -/
  | response (ok : Bool) (body : Option JVal)
  deriving DecidableEq, Repr

/-- What `auth.js` and `router.js` take from outside the two classes. -/
structure Env where
  /-- The constant `endpoint` imported from `main.js`. -/
  endpoint : String
  /-- The text of `new Date().toISOString()`. -/
  now : String
  /-- The builtin `String.prototype.toLowerCase`. -/
  toLowerCase : String → String
  /-- The builtin `JSON.parse`; `none` is a thrown `SyntaxError`. -/
  parse : String → Option JVal
  /-- The builtin `JSON.stringify`. -/
  stringify : JVal → String
  /-- Outcome of `fetch(url)` followed by `response.json()` on the user
  collection, by URL: the array in the body, or `none` when either promise
  rejects. -/
  getUsers : String → Option (List JVal)
  /-- Outcome of `fetch(url, { method: 'POST', body })`, by URL and body. -/
  postUser : String → String → PostResponse
  /-- Outcome of `fetch(filePath)` for a view: the text of the page, or `none`
  when the promise rejects or `response.ok` is false. -/
  fetchPage : String → Option String
  /-- Does `localStorage`, holding the given contents, accept the write of a
  value under a key; when it does not, `setItem` throws. -/
  accepts : Storage → String → String → Bool

/-! ## A reference implementation of the builtins

The theorems below hold for every `Env`. The definitions of this section give
one concrete `Env`, on which the embedding can be evaluated: `JSON.stringify`
and `JSON.parse` on the flat values of `JVal`, and lower-casing of the ASCII
letters. `jsonParse` accepts whitespace, the three literals, safe integers,
strings with escapes and objects whose members are primitives; a text outside
this fragment (nested containers, fractions, exponents and integers that are
not safe, surrogate escapes) is reported as not parseable. -/

namespace Json

/-- Hexadecimal digit for `n < 16`. -/
def hexDigit (n : Nat) : Char :=
  if n < 10 then Char.ofNat (48 + n) else Char.ofNat (87 + n)

/-- The escape of one character inside a JSON string. -/
def escapeChar (c : Char) : List Char :=
  if c = '\x22' then ['\x5c', '\x22']
  else if c = '\x5c' then ['\x5c', '\x5c']
  else if c = '\n' then ['\x5c', 'n']
  else if c = '\r' then ['\x5c', 'r']
  else if c = '\t' then ['\x5c', 't']
  else if c = '\x08' then ['\x5c', 'b']
  else if c = '\x0c' then ['\x5c', 'f']
  else if c.toNat < 32 then
    ['\x5c', 'u', '0', '0', hexDigit (c.toNat / 16), hexDigit (c.toNat % 16)]
  else [c]

/-- A quoted JSON string. -/
def quote (s : String) : List Char :=
  '\x22' :: (s.data.flatMap escapeChar ++ ['\x22'])

/-- The JSON text of a primitive; `undefined` has none and is written as the
text that `setItem` stores for it. -/
def stringifyPrim : Prim → List Char
  | .str s => quote s
  | p => p.toStr.data

/-- The members of an object; a property whose value is `undefined` is
omitted. -/
def stringifyMembers : JObj → List (List Char)
  | [] => []
  | (_, Prim.undefined) :: rest => stringifyMembers rest
  | (k, v) :: rest => (quote k ++ ':' :: stringifyPrim v) :: stringifyMembers rest

/-- A model of `JSON.stringify` on flat values. -/
def jsonStringify : JVal → String
  | .prim p => String.mk (stringifyPrim p)
  | .obj o =>
    String.mk ('\x7b' :: (((stringifyMembers o).intersperse [',']).flatten) ++ ['\x7d'])

/-- Drop leading JSON whitespace. -/
def skipWs : List Char → List Char
  | [] => []
  | c :: cs => if c = ' ' ∨ c = '\n' ∨ c = '\r' ∨ c = '\t' then skipWs cs else c :: cs

/-- Remove the literal `lit` from the front of the input. -/
def stripLit : List Char → List Char → Option (List Char)
  | [], cs => some cs
  | _ :: _, [] => none
  | l :: ls, c :: cs => if l = c then stripLit ls cs else none

/-- Value of a hexadecimal digit. -/
def hexVal (c : Char) : Option Nat :=
  if '0' ≤ c ∧ c ≤ '9' then some (c.toNat - 48)
  else if 'a' ≤ c ∧ c ≤ 'f' then some (c.toNat - 87)
  else if 'A' ≤ c ∧ c ≤ 'F' then some (c.toNat - 55)
  else none

/-- The character denoted by the single-letter escape `\e`. -/
def unescape (e : Char) : Option Char :=
  if e = '\x22' then some '\x22'
  else if e = '\x5c' then some '\x5c'
  else if e = '/' then some '/'
  else if e = 'n' then some '\n'
  else if e = 'r' then some '\r'
  else if e = 't' then some '\t'
  else if e = 'b' then some '\x08'
  else if e = 'f' then some '\x0c'
  else none

/-- The character denoted by `\uXXXX`, outside the surrogate range. -/
def unicodeEscape (a b c d : Char) : Option Char :=
  match hexVal a, hexVal b, hexVal c, hexVal d with
  | some x, some y, some z, some w =>
    let n := 4096 * x + 256 * y + 16 * z + w
    if 0xD800 ≤ n ∧ n ≤ 0xDFFF then none else some (Char.ofNat n)
  | _, _, _, _ => none

/-- Read a string after its opening quote: the characters and the rest of
the input after the closing quote. -/
def parseStringBody : Nat → List Char → Option (List Char × List Char)
  | 0, _ => none
  | _ + 1, [] => none
  | fuel + 1, c :: rest =>
    if c = '\x22' then some ([], rest)
    else if c = '\x5c' then
      match rest with
      | 'u' :: x :: y :: z :: w :: rest2 =>
        match unicodeEscape x y z w, parseStringBody fuel rest2 with
        | some ch, some (s, r) => some (ch :: s, r)
        | _, _ => none
      | e :: rest2 =>
        match unescape e, parseStringBody fuel rest2 with
        | some ch, some (s, r) => some (ch :: s, r)
        | _, _ => none
      | [] => none
    else if c.toNat < 32 then none
    else
      match parseStringBody fuel rest with
      | some (s, r) => some (c :: s, r)
      | none => none

/-- Read the digits of an integer (no leading zero, no fraction, no
exponent). -/
def parseDigits (cs : List Char) : Option (Nat × List Char) :=
  match cs.span Char.isDigit with
  | ([], _) => none
  | (d :: ds, rest) =>
    if d = '0' ∧ ds ≠ [] then none
    else
      match rest with
      | '.' :: _ => none
      | 'e' :: _ => none
      | 'E' :: _ => none
      | _ => some ((d :: ds).foldl (fun n c => 10 * n + (c.toNat - 48)) 0, rest)

/-- Read one primitive value. -/
def parsePrim (cs : List Char) : Option (Prim × List Char) :=
  match cs with
  | [] => none
  | c :: rest =>
    if c = 'n' then (stripLit "ull".data rest).map fun r => (Prim.null, r)
    else if c = 't' then (stripLit "rue".data rest).map fun r => (Prim.bool true, r)
    else if c = 'f' then (stripLit "alse".data rest).map fun r => (Prim.bool false, r)
    else if c = '\x22' then
      (parseStringBody (rest.length + 1) rest).map fun sr => (Prim.str (String.mk sr.1), sr.2)
    else if c = '-' then
      (parseDigits rest).bind fun nr =>
        (SafeInt.ofInt? (-(nr.1 : Int))).map fun n => (Prim.num n, nr.2)
    else
      (parseDigits cs).bind fun nr =>
        (SafeInt.ofInt? (nr.1 : Int)).map fun n => (Prim.num n, nr.2)

/-- Read the members of an object after its opening brace; a repeated key
keeps its first position and takes the last value. -/
def parseMembers : Nat → List Char → JObj → Option (JObj × List Char)
  | 0, _, _ => none
  | fuel + 1, cs, acc =>
    match skipWs cs with
    | c :: rest =>
      if c = '\x22' then
        match parseStringBody (rest.length + 1) rest with
        | none => none
        | some (k, r1) =>
          match skipWs r1 with
          | c2 :: r2 =>
            if c2 = ':' then
              match parsePrim (skipWs r2) with
              | none => none
              | some (v, r3) =>
                match skipWs r3 with
                | c3 :: r4 =>
                  if c3 = ',' then parseMembers fuel r4 (acc.set (String.mk k) v)
                  else if c3 = '\x7d' then some (acc.set (String.mk k) v, r4)
                  else none
                | [] => none
            else none
          | [] => none
      else none
    | [] => none

/-- Read one value. -/
def parseValue (cs : List Char) : Option (JVal × List Char) :=
  match cs with
  | [] => none
  | c :: rest =>
    if c = '\x7b' then
      match skipWs rest with
      | c2 :: r2 =>
        if c2 = '\x7d' then some (JVal.obj [], r2)
        else (parseMembers (rest.length + 1) (c2 :: r2) []).map fun or => (JVal.obj or.1, or.2)
      | [] => none
    else (parsePrim cs).map fun pr => (JVal.prim pr.1, pr.2)

/-- A model of `JSON.parse` on the flat fragment; `none` is a thrown
`SyntaxError`. -/
def jsonParse (s : String) : Option JVal :=
  match parseValue (skipWs s.data) with
  | none => none
  | some (v, rest) => if skipWs rest = [] then some v else none

/-- Lower-case the ASCII letters of a string. -/
def asciiLower (s : String) : String := String.mk (s.data.map Char.toLower)

end Json

/-- An environment with the reference builtins, a store that accepts every
write and no reachable network: every `fetch` rejects. -/
def Env.offline : Env where
  endpoint := "http://localhost:3000"
  now := "2025-01-01T00:00:00.000Z"
  toLowerCase := Json.asciiLower
  parse := Json.jsonParse
  stringify := Json.jsonStringify
  getUsers := fun _ => none
  postUser := fun _ _ => PostResponse.networkError
  fetchPage := fun _ => none
  accepts := fun _ _ _ => true

/-! ## Session manager (`auth.js`) -/

/-- The mutable state `AuthService` works on: its two fields and
`localStorage`. -/
structure AuthState where
  currentUser : JVal
  isAuthenticated : Bool
  storage : Storage

/-- A remote call made through `fetch`. -/
inductive Call where
  | get (url : String)
  | post (url : String) (body : String)
  deriving DecidableEq, Repr

namespace AuthService

/-- Body of `logout()`. -/
def logout (a : AuthState) : AuthState :=
  { currentUser := JVal.null
    isAuthenticated := false
    storage :=
      ((((a.storage.removeItem "vetcare_user").removeItem "userEmail").removeItem
        "userName").removeItem "userType").removeItem "rememberMe" }

/-- Body of `checkSession()`: the new state and the returned boolean. The test
`if (userData)` is false for a missing key and for the empty string. -/
def checkSession (env : Env) (a : AuthState) : AuthState × Bool :=
  match a.storage.getItem "vetcare_user" with
  | none => (a, false)
  | some userData =>
    if userData = "" then (a, false)
    else
      match env.parse userData with
      | some v => ({ a with currentUser := v, isAuthenticated := true }, true)
      | none => (logout a, false)

/-- Body of `getCurrentUser()`. -/
def getCurrentUser (a : AuthState) : JVal := a.currentUser

/-- Body of `isUserAuthenticated()`. -/
def isUserAuthenticated (a : AuthState) : Bool := a.isAuthenticated

/-- Body of `isAdmin()`, as the truth value of
`this.currentUser && this.currentUser.userType === 'admin'`. -/
def isAdmin (a : AuthState) : Bool :=
  a.currentUser.truthy && a.currentUser.getPropOpt "userType" == Prim.str "admin"

/-- Body of `isCustomer()`, as a truth value. -/
def isCustomer (a : AuthState) : Bool :=
  a.currentUser.truthy && a.currentUser.getPropOpt "userType" == Prim.str "customer"

/-- Body of `setSession(userData, rememberMe)`. The boolean is `false` when the
call ends in an exception: the one that `setItem` throws for a write that the
store does not accept, or the `TypeError` of `userData.email` for `null` and
`undefined`. The two fields are assigned before the first write, and the
writes made before the exception stay. -/
def setSession (env : Env) (a : AuthState) (userData : JVal) (rememberMe : Bool) :
    AuthState × Bool :=
  match a.storage.setItem env.accepts "vetcare_user" (env.stringify userData) with
  | none => ({ currentUser := userData, isAuthenticated := true, storage := a.storage }, false)
  | some s1 =>
    match userData.getProp "email" with
    | none => ({ currentUser := userData, isAuthenticated := true, storage := s1 }, false)
    | some email =>
      match s1.setItem env.accepts "userEmail" email.toStr with
      | none => ({ currentUser := userData, isAuthenticated := true, storage := s1 }, false)
      | some s2 =>
        match userData.getProp "firstName" with
        | none => ({ currentUser := userData, isAuthenticated := true, storage := s2 }, false)
        | some firstName =>
          match s2.setItem env.accepts "userName" firstName.toStr with
          | none => ({ currentUser := userData, isAuthenticated := true, storage := s2 }, false)
          | some s3 =>
            match userData.getProp "userType" with
            | none =>
              ({ currentUser := userData, isAuthenticated := true, storage := s3 }, false)
            | some userType =>
              match s3.setItem env.accepts "userType" userType.toStr with
              | none =>
                ({ currentUser := userData, isAuthenticated := true, storage := s3 }, false)
              | some s4 =>
                if rememberMe then
                  match s4.setItem env.accepts "rememberMe" "true" with
                  | none =>
                    ({ currentUser := userData, isAuthenticated := true, storage := s4 }, false)
                  | some s5 =>
                    ({ currentUser := userData, isAuthenticated := true, storage := s5 }, true)
                else ({ currentUser := userData, isAuthenticated := true, storage := s4 }, true)

/-- The table `adminCredentials` of `isAdminUser`: email and password. -/
def adminCredentials : List (String × String) :=
  [("admin@vetcare.com", "admin123"),
   ("administrador@vetcare.com", "admin123"),
   ("vet@vetcare.com", "vet123")]

/-- Body of `isAdminUser(email, password)`. -/
def isAdminUser (env : Env) (email password : String) : Bool :=
  adminCredentials.any fun admin =>
    env.toLowerCase admin.1 == env.toLowerCase email && admin.2 == password

/-- The URL of the lookup by email, `${endpoint}/users?email=${email}`. -/
def usersByEmailUrl (env : Env) (email : String) : String :=
  env.endpoint ++ "/users?email=" ++ email

/-- The URL of the user collection, `${endpoint}/users`. -/
def usersUrl (env : Env) : String := env.endpoint ++ "/users"

/-- Body of `validateCredentials(email, password)`: the returned value (`null`
when the credentials are not validated) and the remote calls made. A rejected
promise and the `TypeError` of `user.password` on `null` or `undefined` are
caught and give `null`. -/
def validateCredentials (env : Env) (email password : String) : JVal × List Call :=
  let url := usersByEmailUrl env email
  match env.getUsers url with
  | none => (JVal.null, [Call.get url])
  | some [] => (JVal.null, [Call.get url])
  | some (user :: _) =>
    match user.getProp "password" with
    | none => (JVal.null, [Call.get url])
    | some pw =>
      if pw = Prim.str password then (user, [Call.get url])
      else (JVal.null, [Call.get url])

/-- The object returned by `login` and `register`; `user` is absent from a
failure result. -/
structure AuthResult where
  success : Bool
  user : Option JVal
  message : String
  deriving DecidableEq, Repr

/-- The session object that `login` builds for an allow-listed administrator. -/
def adminSession (env : Env) (email : String) : JObj :=
  [("email", Prim.str email),
   ("firstName", Prim.str "Administrator"),
   ("lastName", Prim.str "VetCare"),
   ("phone", Prim.str ""),
   ("userType", Prim.str "admin"),
   ("loginTime", Prim.str env.now)]

/-- Body of `login(email, password, rememberMe)`: the new state, the returned
object and the remote calls made. An exception inside the `try` block gives
the `Login error` result. -/
def login (env : Env) (a : AuthState) (email password : String) (rememberMe : Bool) :
    AuthState × AuthResult × List Call :=
  if isAdminUser env email password then
    let userData := JVal.obj (adminSession env email)
    match setSession env a userData rememberMe with
    | (a1, true) =>
      (a1, { success := true, user := some userData, message := "Welcome Administrator!" }, [])
    | (a1, false) =>
      (a1, { success := false, user := none, message := "Login error. Please try again." }, [])
  else
    match validateCredentials env email password with
    | (user, calls) =>
      if user.truthy then
        let userData := JVal.obj (user.ownFields.spread [("loginTime", Prim.str env.now)])
        match setSession env a userData rememberMe with
        | (a1, true) =>
          (a1, { success := true, user := some userData, message := "Welcome to VetCare!" },
            calls)
        | (a1, false) =>
          (a1, { success := false, user := none, message := "Login error. Please try again." },
            calls)
      else
        (a, { success := false, user := none,
              message := "Invalid credentials. Please check your email and password." }, calls)

/-- Body of `checkEmailExists(email)`: the returned boolean and the remote
calls made; a rejected promise is caught and gives `false`. -/
def checkEmailExists (env : Env) (email : Prim) : Bool × List Call :=
  let url := usersByEmailUrl env email.toStr
  match env.getUsers url with
  | none => (false, [Call.get url])
  | some users => (decide (users.length > 0), [Call.get url])

/-- The record that `register` posts: the profile tagged with the customer
role and the registration date. -/
def newUser (env : Env) (userData : JObj) : JObj :=
  userData.spread [("userType", Prim.str "customer"), ("registrationDate", Prim.str env.now)]

/-- The result of the `catch` block of `register`. -/
def registrationError : AuthResult :=
  { success := false, user := none, message := "Registration error. Please try again." }

/-- Body of `register(userData)`: the new state, the returned object and the
remote calls made. -/
def register (env : Env) (a : AuthState) (userData : JObj) :
    AuthState × AuthResult × List Call :=
  match checkEmailExists env (userData.get "email") with
  | (true, calls) =>
    (a, { success := false, user := none, message := "This email is already registered." },
      calls)
  | (false, calls) =>
    let body := env.stringify (JVal.obj (newUser env userData))
    let calls2 := calls ++ [Call.post (usersUrl env) body]
    match env.postUser (usersUrl env) body with
    | PostResponse.networkError => (a, registrationError, calls2)
    | PostResponse.response false _ => (a, registrationError, calls2)
    | PostResponse.response true none => (a, registrationError, calls2)
    | PostResponse.response true (some savedUser) =>
      match setSession env a savedUser false with
      | (a1, true) =>
        (a1, { success := true, user := some savedUser, message := "Registration successful!" },
          calls2)
      | (a1, false) => (a1, registrationError, calls2)

/-- Body of the constructor: both fields cleared, then `init()`, whose only
effect on the state is `checkSession()`. -/
def construct (env : Env) (storage : Storage) : AuthState :=
  (checkSession env { currentUser := JVal.null, isAuthenticated := false, storage := storage }).1

end AuthService

/-! ## Router (`router.js`) -/

/-- The callbacks that the router hands to `setTimeout`. -/
inductive Timer where
  /-- The arrow function scheduled by `showAccessDenied`. -/
  | accessDeniedRedirect
  deriving DecidableEq, Repr

/-- An observable effect of the router. -/
inductive Event where
  /-- Assignment `window.location.href = href`. -/
  | setLocation (href : String)
  /-- Call `window.history.pushState({ path }, '', path)`. -/
  | pushState (path : String)
  /-- Call `window.history.replaceState({ path }, '', path)`. -/
  | replaceState (path : String)
  /-- Call `fetch(filePath)` for the content of a view. -/
  | fetchPage (filePath : String)
  /-- Assignment `document.documentElement.innerHTML = html`. -/
  | setDocument (html : String)
  /-- The listener registrations of `reinitializeScripts`. -/
  | reinitializeScripts
  /-- Assignment `document.title = title`. -/
  | setTitle (title : String)
  /-- Call `authService.showNotification(message, type)`. -/
  | showNotification (message : String) (type : String)
  /-- Call `setTimeout(callback, delay)`. -/
  | setTimeout (callback : Timer) (delay : Nat)
  deriving DecidableEq, Repr

/-- An entry of the `routes` map, as built by `addRoute` (`type: 'page'`) or
by `addApiRoute` (`type: 'api'`). -/
inductive Route where
  | page (filePath : String) (isProtected : Bool) (userType : Option String)
  | api (apiUrl : String)
  deriving DecidableEq, Repr

/-- The fields of `Router`. -/
structure Router where
  routes : List (String × Route)
  currentRoute : Option String
  protectedRoutes : List String
  adminRoutes : List String
  customerRoutes : List String
  deriving DecidableEq, Repr

/-- Lookup `Map.prototype.get`. -/
def mapGet : List (String × Route) → String → Option Route
  | [], _ => none
  | (k, v) :: rest, key => if k = key then some v else mapGet rest key

/-- Update `Map.prototype.set`: an existing key keeps its position. -/
def mapSet : List (String × Route) → String → Route → List (String × Route)
  | [], key, v => [(key, v)]
  | (k, w) :: rest, key, v =>
    if k = key then (k, v) :: rest else (k, w) :: mapSet rest key v

/-- Insertion `Set.prototype.add`. -/
def setAdd (s : List String) (x : String) : List String :=
  if x ∈ s then s else s ++ [x]

namespace Router

/-- The fields as the constructor leaves them before `init()`. -/
def empty : Router :=
  { routes := [], currentRoute := none, protectedRoutes := [], adminRoutes := [],
    customerRoutes := [] }

/-- Body of `addRoute(path, filePath, isProtected, userType)`. -/
def addRoute (r : Router) (path filePath : String) (isProtected : Bool)
    (userType : Option String) : Router :=
  let r1 := { r with routes := mapSet r.routes path (Route.page filePath isProtected userType) }
  if isProtected then
    let r2 := { r1 with protectedRoutes := setAdd r1.protectedRoutes path }
    if userType = some "admin" then { r2 with adminRoutes := setAdd r2.adminRoutes path }
    else if userType = some "customer" then
      { r2 with customerRoutes := setAdd r2.customerRoutes path }
    else r2
  else r1

/-- Body of `addApiRoute(path, apiUrl)`. -/
def addApiRoute (r : Router) (path apiUrl : String) : Router :=
  { r with routes := mapSet r.routes path (Route.api apiUrl) }

/-- Body of `setupRoutes()`. -/
def setupRoutes (env : Env) (r : Router) : Router :=
  let r := r.addRoute "/" "/index.html" false none
  let r := r.addRoute "/login" "/src/views/login.html" false none
  let r := r.addRoute "/register" "/src/views/register.html" false none
  let r := r.addRoute "/dashboard" "/src/views/dashboard.html" true (some "admin")
  let r := r.addRoute "/dashboard-customer" "/src/views/dashboardCustomer.html" true
    (some "customer")
  let r := r.addRoute "/admin" "/src/views/dashboard.html" true (some "admin")
  let r := r.addRoute "/customer" "/src/views/dashboardCustomer.html" true (some "customer")
  let r := r.addApiRoute "/api/users" (env.endpoint ++ "/users")
  let r := r.addApiRoute "/api/pets" (env.endpoint ++ "/pets")
  r.addApiRoute "/api/appointments" (env.endpoint ++ "/appointments")

/-- What a call of `navigate` leaves behind: the router, the session manager
(which `reinitializeScripts` re-initialises), the effects in order, and the
returned value (an API URL, or `undefined`, here `none`). -/
structure NavResult where
  router : Router
  auth : AuthState
  events : List Event
  returned : Option String

/-- Body of `redirectToLogin()`. -/
def redirectToLogin : List Event := [Event.setLocation "/src/views/login.html"]

/-- Body of `navigateTo404()`. -/
def navigateTo404 : List Event := [Event.setLocation "/index.html"]

/-- The text of the access-denied notification. -/
def accessDeniedMessage : String :=
  "Access denied. You do not have permission to view this page."

/-- Body of `showAccessDenied()`: the notification, and the timer that later
runs `accessDeniedRedirect`. -/
def showAccessDenied : List Event :=
  [Event.showNotification accessDeniedMessage "error",
   Event.setTimeout Timer.accessDeniedRedirect 2000]

/-- Body of `updatePageTitle(filePath)`: the table `titles` with its
default. -/
def pageTitle (filePath : String) : String :=
  if filePath = "/src/views/login.html" then "Login - VetCare"
  else if filePath = "/src/views/register.html" then "Register - VetCare"
  else if filePath = "/src/views/dashboard.html" then "Admin Dashboard - VetCare"
  else if filePath = "/src/views/dashboardCustomer.html" then "Customer Dashboard - VetCare"
  else if filePath = "/index.html" then "VetCare - Veterinary Management System"
  else "VetCare"

/-- Body of `loadPage(filePath, options)`: the session manager afterwards and
the effects. A failed fetch is caught and ends in `navigateTo404()`; after a
successful one `reinitializeScripts()` runs `authService.init()`, that is
`checkSession()`. -/
def loadPage (env : Env) (a : AuthState) (filePath : String) (replace : Bool) :
    AuthState × List Event :=
  let history := if !replace then Event.pushState filePath else Event.replaceState filePath
  match env.fetchPage filePath with
  | none => (a, [history, Event.fetchPage filePath] ++ navigateTo404)
  | some html =>
    ((AuthService.checkSession env a).1,
      [history, Event.fetchPage filePath, Event.setDocument html, Event.reinitializeScripts,
       Event.setTitle (pageTitle filePath)])

/-- Truthiness of `route.userType`. -/
def roleRequired : Option String → Bool
  | none => false
  | some s => s != ""

/-- The tail of `navigate` after the guards: record the route, then load the
page. -/
def enterPage (env : Env) (r : Router) (a : AuthState) (path filePath : String)
    (replace : Bool) : NavResult :=
  let loaded := loadPage env a filePath replace
  { router := { r with currentRoute := some path }, auth := loaded.1, events := loaded.2,
    returned := none }

/-- Body of `navigate(path, options)`; `replace` is the truth value of
`options.replace`. An API entry has no `isProtected` property and passes the
guards. -/
def navigate (env : Env) (r : Router) (a : AuthState) (path : String) (replace : Bool) :
    NavResult :=
  match mapGet r.routes path with
  | none => { router := r, auth := a, events := navigateTo404, returned := none }
  | some (Route.api apiUrl) =>
    { router := { r with currentRoute := some path }, auth := a, events := [],
      returned := some apiUrl }
  | some (Route.page filePath isProtected userType) =>
    if isProtected then
      if !AuthService.isUserAuthenticated a then
        { router := r, auth := a, events := redirectToLogin, returned := none }
      else if roleRequired userType then
        let currentUserType := (AuthService.getCurrentUser a).getPropOpt "userType"
        if userType = some "admin" ∧ currentUserType ≠ Prim.str "admin" then
          { router := r, auth := a, events := showAccessDenied, returned := none }
        else if userType = some "customer" ∧ currentUserType ≠ Prim.str "customer" then
          { router := r, auth := a, events := showAccessDenied, returned := none }
        else enterPage env r a path filePath replace
      else enterPage env r a path filePath replace
    else enterPage env r a path filePath replace

/-- The arrow function that `showAccessDenied` schedules, run when the timer
fires. -/
def accessDeniedRedirect (env : Env) (r : Router) (a : AuthState) : NavResult :=
  if AuthService.isAdmin a then navigate env r a "/dashboard" false
  else navigate env r a "/dashboard-customer" false

/-- Run a timer callback. -/
def runTimer (env : Env) (r : Router) (a : AuthState) : Timer → NavResult
  | Timer.accessDeniedRedirect => accessDeniedRedirect env r a

/-- The routing table built at start-up. -/
def table (env : Env) : List (String × Route) := (setupRoutes env empty).routes

end Router

/-! ## Specification-side predicates and concrete scenarios -/

/-- The state in which the constructor starts `init()` on storage `st`. -/
def AuthState.fresh (st : Storage) : AuthState :=
  { currentUser := JVal.null, isAuthenticated := false, storage := st }

/-- The lookup condition in the words of the specification: the response is an
array of exactly one record, which carries the requested email and the given
password. -/
def exactlyOneMatchingRecord (users : Option (List JVal)) (email password : String) : Bool :=
  match users with
  | some [u] =>
    u.getProp "email" == some (Prim.str email) && u.getProp "password" == some (Prim.str password)
  | _ => false

/-- The lookup condition that `validateCredentials` tests: the response is an
array with at least one record, and the first one carries the given password. -/
def firstRecordMatches (users : Option (List JVal)) (password : String) : Bool :=
  match users with
  | some (u :: _) => u.getProp "password" == some (Prim.str password)
  | _ => false

/-- A remote that answers every lookup with two records, the first of them
registered under another email. -/
def Env.twoRecords : Env :=
  { Env.offline with
    getUsers := fun _ =>
      some [JVal.obj [("email", Prim.str "other@vet.com"), ("password", Prim.str "secret")],
            JVal.obj [("email", Prim.str "x@y.com"), ("password", Prim.str "hunter2")]] }

/-- Is the value a record (an object), as a session is. -/
def JVal.isObj : JVal → Bool
  | .obj _ => true
  | .prim _ => false

/-- What may differ from one call of the session manager to the next: the
clock and the answers of the remote. -/
structure Remote where
  now : String
  getUsers : String → Option (List JVal)
  postUser : String → String → PostResponse

/-- The environment `env` at a moment at which the remote is `w`. -/
def Env.withRemote (env : Env) (w : Remote) : Env :=
  { env with now := w.now, getUsers := w.getUsers, postUser := w.postUser }

/-- A call of one of the state-changing methods of `AuthService`. -/
inductive Op where
  | checkSession
  | setSession (userData : JVal) (rememberMe : Bool)
  | login (email password : String) (rememberMe : Bool)
  | register (userData : JObj)
  | logout

/-- The state after one call, made while the remote is `w`. -/
def AuthService.step (env : Env) (a : AuthState) : Remote × Op → AuthState
  | (_, Op.checkSession) => (AuthService.checkSession env a).1
  | (_, Op.setSession userData rememberMe) => (AuthService.setSession env a userData rememberMe).1
  | (w, Op.login email password rememberMe) =>
    (AuthService.login (env.withRemote w) a email password rememberMe).1
  | (w, Op.register userData) => (AuthService.register (env.withRemote w) a userData).1
  | (_, Op.logout) => AuthService.logout a

/-- The state after a sequence of calls. -/
def AuthService.run (env : Env) (a : AuthState) (ops : List (Remote × Op)) : AuthState :=
  ops.foldl (AuthService.step env) a

/-- A call that hands only records to `setSession`: its argument is a record,
and for `register` every body of a successful `POST` response is one. -/
def Op.recordsOnly : Remote × Op → Prop
  | (_, Op.setSession userData _) => userData.isObj = true
  | (w, Op.register _) =>
    ∀ url body v, w.postUser url body = PostResponse.response true (some v) → v.isObj = true
  | _ => True

/-- Storage whose `vetcare_user` value is the JSON text `null`. -/
def Storage.nullSession : Storage := Storage.empty.insert "vetcare_user" "null"

/-- A remote on which every request fails. -/
def Remote.down : Remote :=
  { now := "2025-01-01T00:00:00.000Z", getUsers := fun _ => none,
    postUser := fun _ _ => PostResponse.networkError }

/-- The store assumption of the register-then-login round trip, for the
remote calls `calls` that `register` made: one of them is a `POST` whose body
is the JSON text of a record, the store persists that record, and afterwards
(under `env2`) the lookup by `email` returns it first, every posted property
unchanged. -/
def persistsPosted (env1 env2 : Env) (calls : List Call) (email : String) : Prop :=
  ∃ url body posted stored rest,
    Call.post url body ∈ calls ∧ env1.parse body = some (JVal.obj posted) ∧
    env2.getUsers (AuthService.usersByEmailUrl env2 email) = some (JVal.obj stored :: rest) ∧
    ∀ k, posted.has k = true → stored.get k = posted.get k

/-- Does the store accept every write. -/
def Env.acceptsAll (env : Env) : Prop := ∀ s key value, env.accepts s key value = true

/-- The environment `env` with a store that accepts no write: every
`setItem` throws. -/
def Env.withFullStore (env : Env) : Env := { env with accepts := fun _ _ _ => false }

/-- A remote that answers every lookup with the one record of `x@y.com`. -/
def Env.oneRecord : Env :=
  { Env.offline with
    getUsers := fun _ =>
      some [JVal.obj [("email", Prim.str "x@y.com"), ("password", Prim.str "hunter2"),
        ("firstName", Prim.str "Xavier"), ("userType", Prim.str "customer")]] }

/-- A remote with an empty user collection that accepts every `POST` of a
JSON body and answers with the created record. -/
def Env.emptyStore : Env :=
  { Env.offline with
    getUsers := fun _ => some []
    postUser := fun _ body =>
      match Json.jsonParse body with
      | some v => PostResponse.response true (some v)
      | none => PostResponse.response false none }

/-- The remote of `Env.emptyStore` after the registration of `userData`: the
lookup by its email returns the posted record, every other lookup nothing. -/
def Env.storing (userData : JObj) : Env :=
  { Env.offline with
    getUsers := fun url =>
      if url = AuthService.usersByEmailUrl Env.offline (userData.get "email").toStr then
        some [JVal.obj (AuthService.newUser Env.emptyStore userData)]
      else some [] }

/-- A registration profile under an email and password of the administrator
allow-list. -/
def Profile.adminLookalike : JObj :=
  [("firstName", Prim.str "Ada"), ("lastName", Prim.str "Min"),
   ("email", Prim.str "admin@vetcare.com"), ("phone", Prim.str "5550100"),
   ("password", Prim.str "admin123")]

/-- An ordinary registration profile. -/
def Profile.customer : JObj :=
  [("firstName", Prim.str "Carla"), ("lastName", Prim.str "Ruiz"),
   ("email", Prim.str "carla@example.com"), ("phone", Prim.str "5550101"),
   ("password", Prim.str "secret1")]

/-- Storage whose `vetcare_user` value is the empty string, next to a stored
email. -/
def Storage.emptyText : Storage :=
  (Storage.empty.insert "vetcare_user" "").insert "userEmail" "carla@example.com"

/-- Storage whose `vetcare_user` value is not JSON, next to the four other
session keys. -/
def Storage.corrupted : Storage :=
  ((((Storage.empty.insert "vetcare_user" "\x7boops").insert "userEmail"
    "carla@example.com").insert "userName" "Carla").insert "userType" "customer").insert
    "rememberMe" "true"

/-- Storage without `vetcare_user` that still holds the four other session
keys. -/
def Storage.leftovers : Storage :=
  (((Storage.empty.insert "userEmail" "carla@example.com").insert "userName"
    "Carla").insert "userType" "customer").insert "rememberMe" "true"

/-- A remote whose user collection holds one record with the userType `vet`. -/
def Env.vetRecord : Env :=
  { Env.offline with
    getUsers := fun _ =>
      some [JVal.obj [("email", Prim.str "vet@clinic.com"), ("password", Prim.str "pets4ever"),
        ("userType", Prim.str "vet")]] }

/-- The session manager after an administrator of the allow-list logged in. -/
def AuthState.adminLoggedIn : AuthState :=
  (AuthService.login Env.offline (AuthState.fresh Storage.empty) "admin@vetcare.com" "admin123"
    false).1

/-- The session manager after the user of `Env.vetRecord` logged in. -/
def AuthState.vetLoggedIn : AuthState :=
  (AuthService.login Env.vetRecord (AuthState.fresh Storage.empty) "vet@clinic.com" "pets4ever"
    false).1

/-- The session manager after the customer of `Profile.customer` logged in. -/
def AuthState.customerLoggedIn : AuthState :=
  (AuthService.login (Env.storing Profile.customer) (AuthState.fresh Storage.empty)
    "carla@example.com" "secret1" false).1

/-- The full session invariant, together with the fact that the stored
session text parses to a record if it parses at all. -/
def SessionInvariant (env : Env) (a : AuthState) : Prop :=
  (a.isAuthenticated = true ↔ a.currentUser.isObj = true) ∧
    ∀ s v, a.storage "vetcare_user" = some s → env.parse s = some v → v.isObj = true

/-! ## Start-up route and validation helpers -/

/-- What `handleInitialRoute()` decides for a location. -/
inductive InitialCall where
  /-- The call `this.navigate(path, { replace })`. -/
  | navigate (path : String) (replace : Bool)
  /-- No call: the function returns with the page as it is. -/
  | stay
  /-- The `TypeError` of `user.userType` on `null` or `undefined`. -/
  | typeError
  deriving DecidableEq, Repr

/-- The branch structure of `handleInitialRoute()`, for the value `location`
of `window.location.pathname`. -/
def Router.initialCall (a : AuthState) (location : String) : InitialCall :=
  if location = "/" ∨ location = "/index.html" then
    if AuthService.isUserAuthenticated a then
      match (AuthService.getCurrentUser a).getProp "userType" with
      | none => InitialCall.typeError
      | some userType =>
        if userType = Prim.str "admin" then InitialCall.navigate "/dashboard" true
        else InitialCall.navigate "/dashboard-customer" true
    else InitialCall.stay
  else InitialCall.navigate location true

/-- Body of `handleInitialRoute()`. -/
def Router.handleInitialRoute (env : Env) (r : Router) (a : AuthState) (location : String) :
    Router.NavResult :=
  match Router.initialCall a location with
  | InitialCall.navigate path replace => Router.navigate env r a path replace
  | InitialCall.stay => { router := r, auth := a, events := [], returned := none }
  | InitialCall.typeError => { router := r, auth := a, events := [], returned := none }

/-- The characters of the class `\s` of a JavaScript regular expression. -/
def isWhiteSpace (c : Char) : Bool :=
  c.toNat = 0x09 || c.toNat = 0x0A || c.toNat = 0x0B || c.toNat = 0x0C || c.toNat = 0x0D
    || c.toNat = 0x20 || c.toNat = 0xA0 || c.toNat = 0x1680
    || (0x2000 ≤ c.toNat && c.toNat ≤ 0x200A)
    || c.toNat = 0x2028 || c.toNat = 0x2029 || c.toNat = 0x202F || c.toNat = 0x205F
    || c.toNat = 0x3000 || c.toNat = 0xFEFF

/-- An item of an anchored regular expression `/^ ... $/` without
alternation: a literal character, or a character class under `+`. -/
inductive RegexItem where
  | lit (c : Char)
  | plus (cls : Char → Bool)

/-- Does the whole input match the sequence of items (`RegExp.prototype.test`
for a pattern between `^` and `$`). -/
def matchItems : List RegexItem → List Char → Bool
  | [], [] => true
  | [], _ :: _ => false
  | _ :: _, [] => false
  | RegexItem.lit c :: rest, x :: cs => x = c && matchItems rest cs
  | RegexItem.plus cls :: rest, x :: cs =>
    cls x && (matchItems rest cs || matchItems (RegexItem.plus cls :: rest) cs)

/-- The class `[^\s@]`. -/
def notSpaceOrAt (c : Char) : Bool := !isWhiteSpace c && c != '@'

/-- The pattern `/^[^\s@]+@[^\s@]+\.[^\s@]+$/` of `validateEmail`. -/
def emailRegex : List RegexItem :=
  [RegexItem.plus notSpaceOrAt, RegexItem.lit '@', RegexItem.plus notSpaceOrAt,
   RegexItem.lit '.', RegexItem.plus notSpaceOrAt]

/-- Body of `validateEmail(email)`. -/
def AuthService.validateEmail (email : String) : Bool := matchItems emailRegex email.data

/-- The form `local@domain.tld` in the words of the specification: no
whitespace, exactly one `@`, a non-empty part before it, and after it a part
that contains a `.` with at least one character on each side. -/
def emailShape (s : List Char) : Prop :=
  (∀ c ∈ s, isWhiteSpace c = false) ∧ s.count '@' = 1 ∧
    ∃ localPart domain, s = localPart ++ '@' :: domain ∧ localPart ≠ [] ∧
      ∃ before after, domain = before ++ '.' :: after ∧ before ≠ [] ∧ after ≠ []

/-- A remote on which every lookup fails while the `POST` of a JSON body is
accepted and answered with the created record. -/
def Env.lookupDown : Env :=
  { Env.emptyStore with getUsers := fun _ => none }

/-- A remote with an empty user collection on which every `POST` is
answered with a response that is not 2xx. -/
def Env.postDown : Env :=
  { Env.emptyStore with postUser := fun _ _ => PostResponse.response false none }

/-- Is the outcome of the `POST` a failed remote call: a network error or a
response that is not 2xx. -/
def PostResponse.failed : PostResponse → Bool
  | PostResponse.networkError => true
  | PostResponse.response ok _ => !ok

/-- A registration profile that carries a userType of its own. -/
def Profile.selfDeclaredAdmin : JObj := ("userType", Prim.str "admin") :: Profile.customer

/-! ## Shopping cart (`dashboardCustomer.js`) -/

/-- A quantity: the result of `parseInt` and of the arithmetic on it, that is
`NaN`, an infinity, or a finite number with an integer value. `int n` stands
for the number `n` when `n` is a double, that is when
`roundToDouble n = int n`; every integer below `2^53` in magnitude is one. -/
inductive Quantity where
  | nan
  | inf (negative : Bool)
  | int (n : Int)
  deriving DecidableEq, Repr

/-- The number of binary digits of `n`, for `n` of at most `fuel` digits. -/
def bitLengthAux : Nat → Nat → Nat
  | 0, _ => 0
  | fuel + 1, n => if n = 0 then 0 else 1 + bitLengthAux fuel (n / 2)

/-- The number of binary digits of `n`, for `n` below `2^1024`. -/
def bitLength (n : Nat) : Nat := bitLengthAux 1024 n

/-- The number `2^1024`, the least power of two that is no double. -/
def doubleOverflow : Nat :=
  179769313486231590772930519078902473361797697894230657273430081157732675805500963132708477322407536021120113879871393357658789768814416622492847430639474124377767893424865485276302219601246094119453082952085005768838150682342462881473913110540827237163350510684586298239947245938479716304835356329624224137216

/-- The double nearest to the integer `n` (IEEE 754 binary64, ties to even):
the value of an arithmetic result whose exact value is `n`. Below `2^53` in
magnitude every integer is a double; above, the 53 leading binary digits are
kept and rounded, and a result of `2^1024` or more is an infinity. -/
def roundToDouble (n : Int) : Quantity :=
  if n.natAbs < 2 ^ 53 then Quantity.int n
  else if n.natAbs ≥ doubleOverflow then Quantity.inf (decide (n < 0))
  else
    let shift := bitLength n.natAbs - 53
    let kept := n.natAbs / 2 ^ shift
    let dropped := n.natAbs % 2 ^ shift
    let half := 2 ^ (shift - 1)
    let rounded :=
      if dropped > half ∨ (dropped = half ∧ kept % 2 = 1) then kept + 1 else kept
    if rounded * 2 ^ shift ≥ doubleOverflow then Quantity.inf (decide (n < 0))
    else if n < 0 then Quantity.int (-((rounded * 2 ^ shift : Nat) : Int))
    else Quantity.int ((rounded * 2 ^ shift : Nat) : Int)

/-- The sum `a + b` of two quantities. -/
def Quantity.add : Quantity → Quantity → Quantity
  | Quantity.int a, Quantity.int b => roundToDouble (a + b)
  | Quantity.inf s, Quantity.inf t => if s = t then Quantity.inf s else Quantity.nan
  | Quantity.inf s, Quantity.int _ => Quantity.inf s
  | Quantity.int _, Quantity.inf s => Quantity.inf s
  | Quantity.nan, _ => Quantity.nan
  | _, Quantity.nan => Quantity.nan

/-- The test `q <= 0`, which is false for `NaN`. -/
def Quantity.leZero : Quantity → Bool
  | Quantity.int n => n ≤ 0
  | Quantity.inf negative => negative
  | Quantity.nan => false

/-- The properties of a product that `addToCart` reads. -/
structure Product where
  id : Prim
  name : Prim
  price : Prim
  image : Prim
  deriving DecidableEq, Repr

/-- An element of the array `cart`. -/
structure CartItem where
  id : Prim
  name : Prim
  price : Prim
  quantity : Quantity
  image : Prim
  deriving DecidableEq, Repr

namespace Cart

/-- The assignment `existingItem.quantity += quantity` on the item that
`cart.find(item => item.id === id)` returns, the first one with that id. -/
def addQuantity : List CartItem → Prim → Quantity → List CartItem
  | [], _, _ => []
  | item :: rest, id, quantity =>
    if item.id = id then { item with quantity := item.quantity.add quantity } :: rest
    else item :: addQuantity rest id quantity

/-- The assignment `item.quantity = newQuantity` on the item that
`cart.find(item => item.id === id)` returns. -/
def setQuantity : List CartItem → Prim → Quantity → List CartItem
  | [], _, _ => []
  | item :: rest, id, newQuantity =>
    if item.id = id then { item with quantity := newQuantity } :: rest
    else item :: setQuantity rest id newQuantity

/-- Body of `addToCart()`, as the new value of `cart`; `currentProduct` is
`window.currentProduct` (`none` when it is not set) and `quantity` is the
parsed value of the quantity field. The calls after the update (`saveCart`,
`updateCartDisplay`, `closeProductModal`, the notification) leave `cart` as it
is; an exception in one of them (of `setItem` in `saveCart`, say) is raised
after the update. -/
def addToCart (cart : List CartItem) (currentProduct : Option Product) (quantity : Quantity) :
    List CartItem :=
  match currentProduct with
  | none => cart
  | some product =>
    let cartItem : CartItem :=
      { id := product.id, name := product.name, price := product.price, quantity := quantity,
        image := product.image }
    match cart.find? (fun item => item.id = product.id) with
    | some _ => addQuantity cart product.id quantity
    | none => cart ++ [cartItem]

/-- Body of `removeFromCart(productId)`, as the new value of `cart`. -/
def removeFromCart (cart : List CartItem) (productId : Prim) : List CartItem :=
  cart.filter (fun item => item.id ≠ productId)

/-- Body of `updateCartItemQuantity(productId, newQuantity)`, as the new value
of `cart`. -/
def updateCartItemQuantity (cart : List CartItem) (productId : Prim) (newQuantity : Quantity) :
    List CartItem :=
  if newQuantity.leZero then removeFromCart cart productId
  else
    match cart.find? (fun item => item.id = productId) with
    | some _ => setQuantity cart productId newQuantity
    | none => cart

/-- Body of `completeOrder()`, as the new value of `cart`. -/
def completeOrder (_cart : List CartItem) : List CartItem := []

/-- A call of one of the four functions that assign to `cart`. -/
inductive Op where
  | addToCart (currentProduct : Option Product) (quantity : Quantity)
  | updateCartItemQuantity (productId : Prim) (newQuantity : Quantity)
  | removeFromCart (productId : Prim)
  | completeOrder
  deriving DecidableEq, Repr

/-- The cart after one call. -/
def step (cart : List CartItem) : Op → List CartItem
  | Op.addToCart currentProduct quantity => addToCart cart currentProduct quantity
  | Op.updateCartItemQuantity productId newQuantity =>
    updateCartItemQuantity cart productId newQuantity
  | Op.removeFromCart productId => removeFromCart cart productId
  | Op.completeOrder => completeOrder cart

/-- The cart after a sequence of calls. -/
def run (cart : List CartItem) (ops : List Op) : List CartItem := ops.foldl step cart

/-- A product of the catalogue. -/
def collar : Product :=
  { id := Prim.num ⟨7, by decide⟩, name := Prim.str "Collar",
    price := Prim.num ⟨12, by decide⟩,
    image := Prim.str "collar.png" }

/-- Another product of the catalogue. -/
def shampoo : Product :=
  { id := Prim.num ⟨9, by decide⟩, name := Prim.str "Shampoo",
    price := Prim.num ⟨8, by decide⟩,
    image := Prim.str "shampoo.png" }

end Cart

/-! ## Theorems -/

/-- C1: on a protected route of the routing table, with `isAuthenticated`
false, `navigate` does the login redirect and nothing else: its only effect is
`window.location.href = '/src/views/login.html'`, so no history entry is
written, no page is loaded and no notification is shown; the router (with
`currentRoute`) and the session manager are unchanged and nothing is returned,
whatever role the route requires. -/
theorem navigate_protected_unauthenticated (env : Env) (r : Router) (a : AuthState)
    (path filePath : String) (userType : Option String) (replace : Bool)
    (hr : r.routes = Router.table env)
    (hroute : mapGet (Router.table env) path = some (Route.page filePath true userType))
    (hauth : a.isAuthenticated = false) :
    Router.navigate env r a path replace =
      { router := r, auth := a, events := [Event.setLocation "/src/views/login.html"],
        returned := none } := by
  rw [← hr] at hroute
  simp [Router.navigate, hroute, AuthService.isUserAuthenticated, hauth, Router.redirectToLogin]

/-- C1, instance: the admin dashboard on a fresh start with empty storage. -/
theorem navigate_protected_unauthenticated_witness :
    (Router.setupRoutes Env.offline Router.empty).routes = Router.table Env.offline ∧
    mapGet (Router.table Env.offline) "/dashboard" =
      some (Route.page "/src/views/dashboard.html" true (some "admin")) ∧
    (AuthService.construct Env.offline Storage.empty).isAuthenticated = false ∧
    Router.navigate Env.offline (Router.setupRoutes Env.offline Router.empty)
        (AuthService.construct Env.offline Storage.empty) "/dashboard" false =
      { router := Router.setupRoutes Env.offline Router.empty,
        auth := AuthService.construct Env.offline Storage.empty,
        events := [Event.setLocation "/src/views/login.html"], returned := none } :=
  ⟨rfl, by decide, by decide,
    navigate_protected_unauthenticated Env.offline _ _ "/dashboard" "/src/views/dashboard.html"
      (some "admin") false rfl (by decide) (by decide)⟩

/-- Writing the session of a record on a store that accepts every write: the
call returns, and the state is the assigned fields with the four session keys
written, and `rememberMe` too when the flag is true. -/
theorem setSession_record_accepted (env : Env) (a : AuthState) (o : JObj) (rememberMe : Bool)
    (hstore : env.acceptsAll) :
    AuthService.setSession env a (JVal.obj o) rememberMe =
      ({ currentUser := JVal.obj o, isAuthenticated := true,
         storage :=
           if rememberMe = true then
             ((((a.storage.insert "vetcare_user" (env.stringify (JVal.obj o))).insert "userEmail"
               (o.get "email").toStr).insert "userName" (o.get "firstName").toStr).insert "userType"
               (o.get "userType").toStr).insert "rememberMe" "true"
           else
             (((a.storage.insert "vetcare_user" (env.stringify (JVal.obj o))).insert "userEmail"
               (o.get "email").toStr).insert "userName" (o.get "firstName").toStr).insert "userType"
               (o.get "userType").toStr }, true) := by
  cases rememberMe <;>
    simp [AuthService.setSession, Storage.setItem, hstore _ _ _, JVal.getProp]

/-- Writing the session of a record on a store that accepts every write does
not throw. -/
theorem setSession_obj_ok (env : Env) (a : AuthState) (o : JObj) (rememberMe : Bool)
    (hstore : env.acceptsAll) :
    (AuthService.setSession env a (JVal.obj o) rememberMe).2 = true := by
  rw [setSession_record_accepted env a o rememberMe hstore]

/-- The two fields after `setSession`, whether or not it throws. -/
theorem setSession_assigns (env : Env) (a : AuthState) (u : JVal) (rememberMe : Bool) :
    (AuthService.setSession env a u rememberMe).1.currentUser = u ∧
      (AuthService.setSession env a u rememberMe).1.isAuthenticated = true := by
  unfold AuthService.setSession
  repeat' split
  all_goals exact ⟨rfl, rfl⟩

/-- The result of `login` for credentials of the allow-list, by the outcome
of `setSession`; no remote call is made. -/
theorem login_admin_eq (env : Env) (a : AuthState) (email password : String)
    (rememberMe : Bool) (hadmin : AuthService.isAdminUser env email password = true) :
    AuthService.login env a email password rememberMe =
      ((AuthService.setSession env a (JVal.obj (AuthService.adminSession env email))
          rememberMe).1,
        if (AuthService.setSession env a (JVal.obj (AuthService.adminSession env email))
            rememberMe).2 = true then
          { success := true, user := some (JVal.obj (AuthService.adminSession env email)),
            message := "Welcome Administrator!" }
        else { success := false, user := none, message := "Login error. Please try again." },
        []) := by
  unfold AuthService.login
  simp only [hadmin, if_true]
  rcases hs : AuthService.setSession env a (JVal.obj (AuthService.adminSession env email))
    rememberMe with ⟨a1, ok⟩
  cases ok <;> simp

/-- The result of `login` for credentials outside the allow-list that
`validateCredentials` accepts, by the outcome of `setSession`. -/
theorem login_validated_eq (env : Env) (a : AuthState) (email password : String)
    (rememberMe : Bool) (hadmin : AuthService.isAdminUser env email password = false)
    (hvalid : (AuthService.validateCredentials env email password).1.truthy = true) :
    AuthService.login env a email password rememberMe =
      ((AuthService.setSession env a
          (JVal.obj ((AuthService.validateCredentials env email password).1.ownFields.spread
            [("loginTime", Prim.str env.now)])) rememberMe).1,
        if (AuthService.setSession env a
            (JVal.obj ((AuthService.validateCredentials env email password).1.ownFields.spread
              [("loginTime", Prim.str env.now)])) rememberMe).2 = true then
          { success := true,
            user := some (JVal.obj
              ((AuthService.validateCredentials env email password).1.ownFields.spread
                [("loginTime", Prim.str env.now)])),
            message := "Welcome to VetCare!" }
        else { success := false, user := none, message := "Login error. Please try again." },
        (AuthService.validateCredentials env email password).2) := by
  unfold AuthService.login
  simp only [hadmin, Bool.false_eq_true, if_false, hvalid, if_true]
  rcases hs : AuthService.setSession env a
    (JVal.obj ((AuthService.validateCredentials env email password).1.ownFields.spread
      [("loginTime", Prim.str env.now)])) rememberMe with ⟨a1, ok⟩
  cases ok <;> simp

/-- The result of `login` for credentials outside the allow-list that
`validateCredentials` does not accept: the state is untouched. -/
theorem login_invalid_eq (env : Env) (a : AuthState) (email password : String)
    (rememberMe : Bool) (hadmin : AuthService.isAdminUser env email password = false)
    (hvalid : (AuthService.validateCredentials env email password).1.truthy = false) :
    AuthService.login env a email password rememberMe =
      (a, { success := false, user := none,
            message := "Invalid credentials. Please check your email and password." },
        (AuthService.validateCredentials env email password).2) := by
  unfold AuthService.login
  simp [hadmin, hvalid]

/-- C2, as the code has it: for an email that equals an allow-list entry after
lower-casing both sides, given with that entry's password, on a store that
accepts every write, `login` returns success with the administrator session
(userType `admin`), that session is the current user, `isAuthenticated` is
true, the session is written to storage, and no remote call is made. -/
theorem login_admin_allow_list (env : Env) (a : AuthState) (email password : String)
    (rememberMe : Bool) (admin : String × String) (hmem : admin ∈ AuthService.adminCredentials)
    (hemail : env.toLowerCase admin.1 = env.toLowerCase email) (hpw : admin.2 = password)
    (hstore : env.acceptsAll) :
    (AuthService.login env a email password rememberMe).2.1 =
        { success := true, user := some (JVal.obj (AuthService.adminSession env email)),
          message := "Welcome Administrator!" } ∧
      (AuthService.adminSession env email).get "userType" = Prim.str "admin" ∧
      (AuthService.login env a email password rememberMe).1.currentUser =
        JVal.obj (AuthService.adminSession env email) ∧
      (AuthService.login env a email password rememberMe).1.isAuthenticated = true ∧
      (AuthService.login env a email password rememberMe).1.storage.getItem "vetcare_user" =
        some (env.stringify (JVal.obj (AuthService.adminSession env email))) ∧
      (AuthService.login env a email password rememberMe).1.storage.getItem "userType" =
        some "admin" ∧
      (AuthService.login env a email password rememberMe).2.2 = [] := by
  have hadmin : AuthService.isAdminUser env email password = true := by
    unfold AuthService.isAdminUser
    rw [List.any_eq_true]
    exact ⟨admin, hmem, by simp [hemail, hpw]⟩
  rw [login_admin_eq env a email password rememberMe hadmin,
    setSession_record_accepted env a _ rememberMe hstore]
  refine ⟨by simp, rfl, rfl, rfl, ?_, ?_, rfl⟩
  · cases rememberMe <;> simp [Storage.getItem, Storage.insert]
  · cases rememberMe <;>
      simp [Storage.getItem, Storage.insert, AuthService.adminSession, JObj.get, Prim.toStr]

/-- C2, instance: `admin@vetcare.com` with `admin123`. -/
theorem login_admin_allow_list_witness :
    (("admin@vetcare.com", "admin123") : String × String) ∈ AuthService.adminCredentials ∧
    Env.offline.acceptsAll ∧
    (AuthService.login Env.offline (AuthState.fresh Storage.empty) "admin@vetcare.com"
        "admin123" false).2.1 =
      { success := true,
        user := some (JVal.obj (AuthService.adminSession Env.offline "admin@vetcare.com")),
        message := "Welcome Administrator!" } ∧
    (AuthService.login Env.offline (AuthState.fresh Storage.empty) "admin@vetcare.com"
        "admin123" false).2.2 = [] :=
  ⟨by decide, fun _ _ _ => rfl,
    (login_admin_allow_list Env.offline (AuthState.fresh Storage.empty) "admin@vetcare.com"
      "admin123" false ("admin@vetcare.com", "admin123") (by decide) rfl rfl
      (fun _ _ _ => rfl)).1,
    (login_admin_allow_list Env.offline (AuthState.fresh Storage.empty) "admin@vetcare.com"
      "admin123" false ("admin@vetcare.com", "admin123") (by decide) rfl rfl
      (fun _ _ _ => rfl)).2.2.2.2.2.2⟩

/-- C2 as stated fails: on a store that accepts no write, `setItem` throws
inside `setSession`, and `login` with `admin@vetcare.com` and `admin123`
returns the login-error result with success=false. -/
theorem login_admin_full_store_counterexample :
    (("admin@vetcare.com", "admin123") : String × String) ∈ AuthService.adminCredentials ∧
    (AuthService.login Env.offline.withFullStore (AuthState.fresh Storage.empty)
        "admin@vetcare.com" "admin123" false).2.1 =
      { success := false, user := none, message := "Login error. Please try again." } := by
  decide

/-- A record whose `password` property is a string is truthy. -/
theorem truthy_of_password (u : JVal) (password : String)
    (h : u.getProp "password" = some (Prim.str password)) : u.truthy = true := by
  cases u with
  | prim p => cases p <;> simp [JVal.getProp] at h
  | obj o => rfl

/-- What `validateCredentials` returns, by the shape of the lookup response. -/
theorem validateCredentials_truthy (env : Env) (email password : String) :
    (AuthService.validateCredentials env email password).1.truthy =
      firstRecordMatches (env.getUsers (AuthService.usersByEmailUrl env email)) password := by
  simp only [AuthService.validateCredentials, firstRecordMatches]
  cases hget : env.getUsers (AuthService.usersByEmailUrl env email) with
  | none => simp [JVal.truthy]
  | some users =>
    cases users with
    | nil => simp [JVal.truthy]
    | cons u rest =>
      cases hpw : u.getProp "password" with
      | none => simp [hpw, JVal.truthy]
      | some pw =>
        by_cases heq : pw = Prim.str password
        · subst heq
          simp [hpw, truthy_of_password u password hpw]
        · simp [hpw, heq, JVal.truthy]

/-- C3, as the code has it: for credentials that `isAdminUser` rejects, on a
store that accepts every write, `login` returns success exactly when the
lookup response is an array with at least one record whose first record
carries exactly the given password; the number of records and the email of
the first record are not examined. In particular a response of exactly one
record with the requested email and the given password gives success. -/
theorem login_success_iff_first_record (env : Env) (a : AuthState) (email password : String)
    (rememberMe : Bool) (h : AuthService.isAdminUser env email password = false)
    (hstore : env.acceptsAll) :
    ((AuthService.login env a email password rememberMe).2.1.success = true ↔
        firstRecordMatches (env.getUsers (AuthService.usersByEmailUrl env email)) password
          = true) ∧
      (exactlyOneMatchingRecord (env.getUsers (AuthService.usersByEmailUrl env email)) email
          password = true →
        (AuthService.login env a email password rememberMe).2.1.success = true) := by
  have hiff : (AuthService.login env a email password rememberMe).2.1.success = true ↔
      firstRecordMatches (env.getUsers (AuthService.usersByEmailUrl env email)) password
        = true := by
    rw [← validateCredentials_truthy]
    cases hv : (AuthService.validateCredentials env email password).1.truthy with
    | false =>
      rw [login_invalid_eq env a email password rememberMe h hv]
    | true =>
      rw [login_validated_eq env a email password rememberMe h hv,
        setSession_obj_ok env a _ rememberMe hstore]
      simp
  refine ⟨hiff, fun hone => hiff.mpr ?_⟩
  revert hone
  unfold exactlyOneMatchingRecord firstRecordMatches
  cases env.getUsers (AuthService.usersByEmailUrl env email) with
  | none => simp
  | some users =>
    cases users with
    | nil => simp
    | cons u rest =>
      cases rest with
      | nil => simp
      | cons v rest2 => simp

/-- C3, instance: a lookup answered with two records. -/
theorem login_success_iff_first_record_witness :
    AuthService.isAdminUser Env.twoRecords "x@y.com" "secret" = false ∧
    Env.twoRecords.acceptsAll ∧
    ((AuthService.login Env.twoRecords (AuthState.fresh Storage.empty) "x@y.com" "secret"
          false).2.1.success = true ↔
        firstRecordMatches
          (Env.twoRecords.getUsers (AuthService.usersByEmailUrl Env.twoRecords "x@y.com"))
          "secret" = true) :=
  ⟨by decide, fun _ _ _ => rfl,
    (login_success_iff_first_record Env.twoRecords (AuthState.fresh Storage.empty) "x@y.com"
      "secret" false (by decide) (fun _ _ _ => rfl)).1⟩

set_option maxRecDepth 100000 in
/-- C3 as stated fails: the lookup for `x@y.com` returns two records, the first
one under another email, and `login` with the first record's password
succeeds although the response is not exactly one record with that email.
And on a store that accepts no write, a lookup that returns exactly the one
record of `x@y.com` with the given password still ends in success=false. -/
theorem login_several_records_counterexample :
    AuthService.isAdminUser Env.twoRecords "x@y.com" "secret" = false ∧
    ¬ ((AuthService.login Env.twoRecords (AuthState.fresh Storage.empty) "x@y.com" "secret"
          false).2.1.success = true ↔
        exactlyOneMatchingRecord
          (Env.twoRecords.getUsers (AuthService.usersByEmailUrl Env.twoRecords "x@y.com"))
          "x@y.com" "secret" = true) ∧
    AuthService.isAdminUser Env.oneRecord.withFullStore "x@y.com" "hunter2" = false ∧
    exactlyOneMatchingRecord
      (Env.oneRecord.withFullStore.getUsers
        (AuthService.usersByEmailUrl Env.oneRecord.withFullStore "x@y.com"))
      "x@y.com" "hunter2" = true ∧
    (AuthService.login Env.oneRecord.withFullStore (AuthState.fresh Storage.empty) "x@y.com"
        "hunter2" false).2.1.success = false := by
  decide

/-- The text under `vetcare_user` after `setSession`: the JSON text of the
session, or the old value when the first write was not accepted. -/
theorem setSession_stored (env : Env) (a : AuthState) (u : JVal) (rememberMe : Bool) :
    (AuthService.setSession env a u rememberMe).1.storage "vetcare_user" =
        a.storage "vetcare_user" ∨
      (AuthService.setSession env a u rememberMe).1.storage "vetcare_user" =
        some (env.stringify u) := by
  unfold AuthService.setSession
  simp only [Storage.setItem]
  repeat' split
  all_goals simp_all
  all_goals casesm* _ ∧ _
  all_goals subst_vars
  all_goals simp [Storage.insert]

/-- The state after `login` is the old one, or the one `setSession` leaves for
some record. -/
theorem login_state (env : Env) (a : AuthState) (email password : String) (rememberMe : Bool) :
    (AuthService.login env a email password rememberMe).1 = a ∨
      ∃ o, (AuthService.login env a email password rememberMe).1 =
        (AuthService.setSession env a (JVal.obj o) rememberMe).1 := by
  unfold AuthService.login
  split
  · right
    refine ⟨AuthService.adminSession env email, ?_⟩
    dsimp only
    split <;> rename_i heq <;> rw [heq]
  · split
    rename_i user calls _
    split
    · right
      refine ⟨user.ownFields.spread [("loginTime", Prim.str env.now)], ?_⟩
      dsimp only
      split <;> rename_i heq <;> rw [heq]
    · left; rfl

/-- The state after `register` is the old one, or the one `setSession` leaves
for the body of a successful `POST` response. -/
theorem register_state (env : Env) (a : AuthState) (userData : JObj) :
    (AuthService.register env a userData).1 = a ∨
      ∃ url body v, env.postUser url body = PostResponse.response true (some v) ∧
        (AuthService.register env a userData).1 = (AuthService.setSession env a v false).1 := by
  unfold AuthService.register
  split
  · left; rfl
  · dsimp only
    split
    · left; rfl
    · left; rfl
    · left; rfl
    · rename_i savedUser hpost
      right
      refine ⟨_, _, savedUser, hpost, ?_⟩
      split <;> rename_i heq <;> rw [heq]

/-- One direction of the session invariant is kept by every call. -/
theorem step_authenticated_of_user (env : Env) (a : AuthState) (op : Remote × Op)
    (h : a.currentUser ≠ JVal.null → a.isAuthenticated = true) :
    (AuthService.step env a op).currentUser ≠ JVal.null →
      (AuthService.step env a op).isAuthenticated = true := by
  obtain ⟨w, op⟩ := op
  cases op with
  | checkSession =>
    simp only [AuthService.step, AuthService.checkSession]
    split
    · exact h
    · split
      · exact h
      · split
        · intro _; rfl
        · intro hne; exact absurd rfl hne
  | setSession u rememberMe =>
    intro _
    exact (setSession_assigns env a u rememberMe).2
  | login email password rememberMe =>
    simp only [AuthService.step]
    rcases login_state (env.withRemote w) a email password rememberMe with heq | ⟨o, heq⟩
    · rw [heq]; exact h
    · rw [heq]; intro _; exact (setSession_assigns _ a _ rememberMe).2
  | register userData =>
    simp only [AuthService.step]
    rcases register_state (env.withRemote w) a userData with heq | ⟨_, _, v, _, heq⟩
    · rw [heq]; exact h
    · rw [heq]; intro _; exact (setSession_assigns _ a v false).2
  | logout =>
    intro hne
    exact absurd rfl hne

/-- The state that `setSession` leaves for a record has the full invariant,
when the state before has it. -/
theorem setSession_invariant (env env2 : Env) (a : AuthState) (u : JVal) (rememberMe : Bool)
    (hcodec : ∀ o v, env.parse (env2.stringify (JVal.obj o)) = some v → v.isObj = true)
    (hu : u.isObj = true) (h : SessionInvariant env a) :
    SessionInvariant env (AuthService.setSession env2 a u rememberMe).1 := by
  obtain ⟨hcu, hauth⟩ := setSession_assigns env2 a u rememberMe
  refine ⟨by rw [hcu, hauth]; simp [hu], ?_⟩
  intro s v hs hv
  rcases setSession_stored env2 a u rememberMe with hst | hst
  · rw [hst] at hs
    exact h.2 s v hs hv
  · rw [hst] at hs
    cases u with
    | prim p => simp [JVal.isObj] at hu
    | obj o =>
      injection hs with hs
      subst hs
      exact hcodec o v hv

/-- The full invariant is kept by every call that hands only records to
`setSession`. -/
theorem step_invariant (env : Env) (a : AuthState) (op : Remote × Op)
    (hcodec : ∀ o v, env.parse (env.stringify (JVal.obj o)) = some v → v.isObj = true)
    (hop : Op.recordsOnly op) (h : SessionInvariant env a) :
    SessionInvariant env (AuthService.step env a op) := by
  obtain ⟨w, op⟩ := op
  cases op with
  | checkSession =>
    simp only [AuthService.step, AuthService.checkSession]
    split
    · exact h
    · rename_i userData hget
      split
      · exact h
      · split
        · rename_i v hparse
          have hv := h.2 userData v hget hparse
          exact ⟨by simp [hv], h.2⟩
        · refine ⟨by simp [AuthService.logout, JVal.isObj], ?_⟩
          intro s v hs
          simp [AuthService.logout, Storage.removeItem] at hs
  | setSession u rememberMe =>
    exact setSession_invariant env env a u rememberMe hcodec hop h
  | login email password rememberMe =>
    simp only [AuthService.step]
    rcases login_state (env.withRemote w) a email password rememberMe with heq | ⟨o, heq⟩
    · rw [heq]; exact h
    · rw [heq]; exact setSession_invariant env (env.withRemote w) a _ rememberMe hcodec rfl h
  | register userData =>
    simp only [AuthService.step]
    rcases register_state (env.withRemote w) a userData with heq | ⟨url, body, v, hpost, heq⟩
    · rw [heq]; exact h
    · rw [heq]
      exact setSession_invariant env (env.withRemote w) a v false hcodec (hop url body v hpost) h
  | logout =>
    refine ⟨by simp [AuthService.step, AuthService.logout, JVal.isObj], ?_⟩
    intro s v hs
    simp [AuthService.step, AuthService.logout, Storage.removeItem] at hs

/-- An invariant kept by every call of a sequence holds after the sequence. -/
theorem run_induction (env : Env) (P : AuthState → Prop) (ops : List (Remote × Op))
    (hstep : ∀ a op, op ∈ ops → P a → P (AuthService.step env a op)) :
    ∀ a, P a → P (AuthService.run env a ops) := by
  induction ops with
  | nil => intro a ha; exact ha
  | cons op rest ih =>
    intro a ha
    have h1 := hstep a op (List.mem_cons_self op rest) ha
    exact ih (fun b o ho hb => hstep b o (List.mem_cons_of_mem op ho) hb) _ h1

/-- In every reachable state a current user other than `null` comes with
`isAuthenticated` true; this direction needs no proviso. -/
theorem authenticated_of_user_reachable (env : Env) (storage : Storage)
    (ops : List (Remote × Op)) :
    (AuthService.run env (AuthService.construct env storage) ops).currentUser ≠ JVal.null →
      (AuthService.run env (AuthService.construct env storage) ops).isAuthenticated = true := by
  apply run_induction env (fun a => a.currentUser ≠ JVal.null → a.isAuthenticated = true) ops
    (fun a op _ h => step_authenticated_of_user env a op h)
  exact step_authenticated_of_user env (AuthState.fresh storage) (Remote.down, Op.checkSession)
    (fun hne => absurd rfl hne)

/-- The reference `JSON.parse` reads the reference `JSON.stringify` text of a
record as a record, if it reads it at all. -/
theorem offline_codec_records (o : JObj) (v : JVal)
    (h : Env.offline.parse (Env.offline.stringify (JVal.obj o)) = some v) : v.isObj = true := by
  simp only [Env.offline, Json.jsonParse, Json.jsonStringify, Json.skipWs] at h
  rw [if_neg (by decide)] at h
  simp only [Json.parseValue, if_true] at h
  split at h
  · simp at h
  · rename_i w rest hpv
    split at h
    · injection h with h
      subst h
      split at hpv
      · split at hpv
        · simp at hpv
          rw [← hpv.1]; rfl
        · simp only [Option.map_eq_some'] at hpv
          obtain ⟨x, _, hx⟩ := hpv
          injection hx with hx1 _
          rw [← hx1]; rfl
      · simp at hpv
    · simp at h

/-- C4, as the code has it: in every state reachable from the constructor by
calls of checkSession, setSession, login, register and logout,
`isAuthenticated` is true exactly when `currentUser` is a record, provided
that only records reach the session: the text of a record parses to a record
if it parses, the initially stored `vetcare_user` text parses to a record if
it parses, every argument of a direct `setSession` call is a record, and every
body of a successful `POST` response is a record. -/
theorem session_invariant_reachable (env : Env) (storage : Storage) (ops : List (Remote × Op))
    (hcodec : ∀ o v, env.parse (env.stringify (JVal.obj o)) = some v → v.isObj = true)
    (hinit : ∀ s v, storage "vetcare_user" = some s → env.parse s = some v → v.isObj = true)
    (hops : ∀ op ∈ ops, Op.recordsOnly op) :
    (AuthService.run env (AuthService.construct env storage) ops).isAuthenticated = true ↔
      (AuthService.run env (AuthService.construct env storage) ops).currentUser.isObj = true := by
  have hfresh : SessionInvariant env (AuthState.fresh storage) :=
    ⟨by simp [AuthState.fresh, JVal.isObj], hinit⟩
  have hstart : SessionInvariant env (AuthService.construct env storage) :=
    step_invariant env (AuthState.fresh storage) (Remote.down, Op.checkSession) hcodec trivial
      hfresh
  exact (run_induction env (SessionInvariant env) ops
    (fun a op hop h => step_invariant env a op hcodec (hops op hop) h) _ hstart).1

/-- C4, instance: an administrator logs in and out again on empty storage. -/
theorem session_invariant_reachable_witness :
    (∀ op ∈ [(Remote.down, Op.login "admin@vetcare.com" "admin123" false),
        (Remote.down, Op.logout)], Op.recordsOnly op) ∧
    ((AuthService.run Env.offline (AuthService.construct Env.offline Storage.empty)
        [(Remote.down, Op.login "admin@vetcare.com" "admin123" false),
          (Remote.down, Op.logout)]).isAuthenticated = true ↔
      (AuthService.run Env.offline (AuthService.construct Env.offline Storage.empty)
        [(Remote.down, Op.login "admin@vetcare.com" "admin123" false),
          (Remote.down, Op.logout)]).currentUser.isObj = true) :=
  ⟨by simp [Op.recordsOnly],
    session_invariant_reachable Env.offline Storage.empty _ offline_codec_records
      (fun s v hs _ => by simp [Storage.empty] at hs) (by simp [Op.recordsOnly])⟩

/-- C4 as stated fails: with the JSON text `null` stored under `vetcare_user`,
the constructor leaves `isAuthenticated` true and `currentUser` null. -/
theorem session_invariant_null_counterexample :
    (AuthService.run Env.offline (AuthService.construct Env.offline Storage.nullSession)
        []).isAuthenticated = true ∧
    (AuthService.run Env.offline (AuthService.construct Env.offline Storage.nullSession)
        []).currentUser = JVal.null ∧
    ¬ ((AuthService.run Env.offline (AuthService.construct Env.offline Storage.nullSession)
          []).isAuthenticated = true ↔
        (AuthService.run Env.offline (AuthService.construct Env.offline Storage.nullSession)
          []).currentUser.isObj = true) := by
  decide

/-- Reading a property that was just overwritten. -/
theorem JObj.get_replace_self (o : JObj) (k : String) (v : Prim) (h : o.has k = true) :
    (o.replace k v).get k = v := by
  induction o with
  | nil => simp [JObj.has] at h
  | cons kv rest ih =>
    obtain ⟨k1, v1⟩ := kv
    by_cases hk : k1 = k
    · simp [JObj.replace, JObj.get, hk]
    · simp only [JObj.has, hk, if_false] at h
      simp [JObj.replace, JObj.get, hk, ih h]

/-- Overwriting a property leaves the others as they are. -/
theorem JObj.get_replace_other (o : JObj) (k k2 : String) (v : Prim) (h : k2 ≠ k) :
    (o.replace k v).get k2 = o.get k2 := by
  induction o with
  | nil => rfl
  | cons kv rest ih =>
    obtain ⟨k1, v1⟩ := kv
    by_cases hk : k1 = k
    · subst hk
      simp [JObj.replace, JObj.get, Ne.symm h, ih]
    · by_cases hk2 : k1 = k2
      · subst hk2
        simp [JObj.replace, JObj.get, hk]
      · simp [JObj.replace, JObj.get, hk, hk2, ih]

/-- Reading a property at the end of a record. -/
theorem JObj.get_append_of_not_has (o : JObj) (k k2 : String) (v : Prim) :
    (o ++ [(k, v)]).get k2 = if o.has k2 = true then o.get k2 else if k = k2 then v
      else Prim.undefined := by
  induction o with
  | nil => simp [JObj.get, JObj.has]
  | cons kv rest ih =>
    obtain ⟨k1, v1⟩ := kv
    by_cases hk : k1 = k2
    · simp [JObj.get, JObj.has, hk]
    · simp [JObj.get, JObj.has, hk, ih]

/-- A property that reads other than `undefined` is an own property. -/
theorem JObj.has_of_get (o : JObj) (k : String) (h : o.get k ≠ Prim.undefined) :
    o.has k = true := by
  induction o with
  | nil => simp [JObj.get] at h
  | cons kv rest ih =>
    obtain ⟨k1, v1⟩ := kv
    by_cases hk : k1 = k
    · simp [JObj.has, hk]
    · simp only [JObj.get, hk, if_false] at h
      simp [JObj.has, hk, ih h]

/-- Reading `o[k]` after `o[k] = v`. -/
theorem JObj.get_set_self (o : JObj) (k : String) (v : Prim) : (o.set k v).get k = v := by
  unfold JObj.set
  by_cases h : o.has k = true
  · simp [h, JObj.get_replace_self o k v h]
  · simp [h, JObj.get_append_of_not_has]

/-- Reading another property after `o[k] = v`. -/
theorem JObj.get_set_other (o : JObj) (k k2 : String) (v : Prim) (h : k2 ≠ k) :
    (o.set k v).get k2 = o.get k2 := by
  unfold JObj.set
  by_cases hk : o.has k = true
  · simp [hk, JObj.get_replace_other o k k2 v h]
  · simp only [hk, Bool.false_eq_true, if_false, JObj.get_append_of_not_has]
    by_cases h2 : o.has k2 = true
    · simp [h2]
    · simp only [h2, Bool.false_eq_true, if_false, Ne.symm h]
      by_contra hne
      exact h2 (JObj.has_of_get o k2 (fun hu => hne hu.symm))

/-- The posted record is tagged as a customer. -/
theorem newUser_userType (env : Env) (userData : JObj) :
    (AuthService.newUser env userData).get "userType" = Prim.str "customer" := by
  simp only [AuthService.newUser, JObj.spread, List.foldl]
  rw [JObj.get_set_other _ _ _ _ (by decide), JObj.get_set_self]

/-- The posted record carries the password of the profile. -/
theorem newUser_password (env : Env) (userData : JObj) :
    (AuthService.newUser env userData).get "password" = userData.get "password" := by
  simp only [AuthService.newUser, JObj.spread, List.foldl]
  rw [JObj.get_set_other _ _ _ _ (by decide), JObj.get_set_other _ _ _ _ (by decide)]

/-- What `login` does outside the allow-list when the lookup returns a record
with the given password first, on a store that accepts every write. -/
theorem login_first_record (env : Env) (a : AuthState) (email password : String)
    (rememberMe : Bool) (stored : JObj) (rest : List JVal)
    (hadmin : AuthService.isAdminUser env email password = false)
    (hget : env.getUsers (AuthService.usersByEmailUrl env email) = some (JVal.obj stored :: rest))
    (hpw : stored.get "password" = Prim.str password) (hstore : env.acceptsAll) :
    AuthService.login env a email password rememberMe =
      ((AuthService.setSession env a
          (JVal.obj (stored.spread [("loginTime", Prim.str env.now)])) rememberMe).1,
        { success := true,
          user := some (JVal.obj (stored.spread [("loginTime", Prim.str env.now)])),
          message := "Welcome to VetCare!" },
        [Call.get (AuthService.usersByEmailUrl env email)]) := by
  have hv : AuthService.validateCredentials env email password =
      (JVal.obj stored, [Call.get (AuthService.usersByEmailUrl env email)]) := by
    simp [AuthService.validateCredentials, hget, JVal.getProp, hpw]
  have hvalid : (AuthService.validateCredentials env email password).1.truthy = true := by
    rw [hv]; rfl
  rw [login_validated_eq env a email password rememberMe hadmin hvalid, hv]
  simp only [JVal.ownFields]
  rw [setSession_obj_ok env a _ rememberMe hstore]
  simp

/-- A successful `register` found the email not registered. -/
theorem register_success_new (env : Env) (a : AuthState) (userData : JObj)
    (h : (AuthService.register env a userData).2.1.success = true) :
    (AuthService.checkEmailExists env (userData.get "email")).1 = false := by
  rcases hc : AuthService.checkEmailExists env (userData.get "email") with ⟨b, calls⟩
  cases b with
  | true => simp [AuthService.register, hc] at h
  | false => rfl

/-- The remote calls of `register` for an email that is not reported as
registered: the lookup, then the `POST` of the JSON text of the tagged
profile. -/
theorem register_calls (env : Env) (a : AuthState) (userData : JObj)
    (hnew : (AuthService.checkEmailExists env (userData.get "email")).1 = false) :
    (AuthService.register env a userData).2.2 =
      [Call.get (AuthService.usersByEmailUrl env (userData.get "email").toStr),
       Call.post (AuthService.usersUrl env)
         (env.stringify (JVal.obj (AuthService.newUser env userData)))] := by
  have hc : AuthService.checkEmailExists env (userData.get "email") =
      (false, [Call.get (AuthService.usersByEmailUrl env (userData.get "email").toStr)]) := by
    cases hg : env.getUsers (AuthService.usersByEmailUrl env (userData.get "email").toStr) with
    | none => simp [AuthService.checkEmailExists, hg]
    | some users =>
      simp only [AuthService.checkEmailExists, hg] at hnew ⊢
      rw [hnew]
  unfold AuthService.register
  rw [hc]
  dsimp only
  split
  · rfl
  · rfl
  · rfl
  · split <;> rfl

/-- C5, as the code has it: for a profile whose email and password are strings
that `isAdminUser` rejects, a store that persists the record that `register`
posted and returns it first for the later lookup by the profile's email, and
a `localStorage` that accepts every write at the time of the login: a
successful `register` followed by `login` with the profile's email and
password returns success with a session whose userType is `customer`, and
that session is the current user. The JSON text of the posted record is
taken to decode to a record with the same properties. -/
theorem register_then_login (env1 env2 : Env) (a : AuthState) (userData : JObj)
    (email password : String) (rememberMe : Bool)
    (hemail : userData.get "email" = Prim.str email)
    (hpw : userData.get "password" = Prim.str password)
    (hreg : (AuthService.register env1 a userData).2.1.success = true)
    (hcodec : ∀ posted,
      env1.parse (env1.stringify (JVal.obj (AuthService.newUser env1 userData))) =
        some (JVal.obj posted) →
      ∀ k, posted.get k = (AuthService.newUser env1 userData).get k)
    (hstore : persistsPosted env1 env2 (AuthService.register env1 a userData).2.2
      (userData.get "email").toStr)
    (hadmin : AuthService.isAdminUser env2 email password = false)
    (haccept : env2.acceptsAll) :
    (AuthService.login env2 (AuthService.register env1 a userData).1 email password
        rememberMe).2.1.success = true ∧
      ∃ session,
        (AuthService.login env2 (AuthService.register env1 a userData).1 email password
          rememberMe).2.1.user = some (JVal.obj session) ∧
        session.get "userType" = Prim.str "customer" ∧
        (AuthService.login env2 (AuthService.register env1 a userData).1 email password
          rememberMe).1.currentUser = JVal.obj session ∧
        (AuthService.login env2 (AuthService.register env1 a userData).1 email password
          rememberMe).1.isAuthenticated = true := by
  obtain ⟨url, body, posted, stored, rest, hcall, hdecode, hget, hsame⟩ := hstore
  rw [hemail] at hget
  change env2.getUsers (AuthService.usersByEmailUrl env2 email) = _ at hget
  rw [register_calls env1 a userData (register_success_new env1 a userData hreg)] at hcall
  simp only [List.mem_cons, List.mem_singleton, List.not_mem_nil, or_false,
    Call.post.injEq, false_or, reduceCtorEq] at hcall
  obtain ⟨_, hbody⟩ := hcall
  subst hbody
  have hposted := hcodec posted hdecode
  have hppw : posted.get "password" = Prim.str password := by
    rw [hposted, newUser_password, hpw]
  have hptype : posted.get "userType" = Prim.str "customer" := by
    rw [hposted, newUser_userType]
  have hspw : stored.get "password" = Prim.str password := by
    rw [hsame "password" (JObj.has_of_get posted "password" (by rw [hppw]; simp)), hppw]
  have hstype : stored.get "userType" = Prim.str "customer" := by
    rw [hsame "userType" (JObj.has_of_get posted "userType" (by rw [hptype]; simp)), hptype]
  rw [login_first_record env2 _ email password rememberMe stored rest hadmin hget hspw haccept]
  refine ⟨rfl, stored.spread [("loginTime", Prim.str env2.now)], rfl, ?_, ?_, ?_⟩
  · simp only [JObj.spread, List.foldl]
    rw [JObj.get_set_other _ _ _ _ (by decide), hstype]
  · exact (setSession_assigns env2 _ _ rememberMe).1
  · exact (setSession_assigns env2 _ _ rememberMe).2

set_option maxRecDepth 100000 in
/-- C5, instance: an ordinary profile registered on an empty store. -/
theorem register_then_login_witness :
    (AuthService.register Env.emptyStore (AuthState.fresh Storage.empty)
        Profile.customer).2.1.success = true ∧
    persistsPosted Env.emptyStore (Env.storing Profile.customer)
      (AuthService.register Env.emptyStore (AuthState.fresh Storage.empty) Profile.customer).2.2
      (Profile.customer.get "email").toStr ∧
    AuthService.isAdminUser (Env.storing Profile.customer) "carla@example.com" "secret1"
      = false ∧
    (AuthService.login (Env.storing Profile.customer)
        (AuthService.register Env.emptyStore (AuthState.fresh Storage.empty) Profile.customer).1
        "carla@example.com" "secret1" false).2.1.success = true :=
  ⟨by decide,
    ⟨AuthService.usersUrl Env.emptyStore,
      Env.emptyStore.stringify (JVal.obj (AuthService.newUser Env.emptyStore Profile.customer)),
      AuthService.newUser Env.emptyStore Profile.customer,
      AuthService.newUser Env.emptyStore Profile.customer, [],
      by decide, by decide, by decide, fun _ _ => rfl⟩,
    by decide,
    (register_then_login Env.emptyStore (Env.storing Profile.customer)
      (AuthState.fresh Storage.empty) Profile.customer "carla@example.com" "secret1" false
      (by decide) (by decide) (by decide)
      (fun posted h k => by
        have h2 : Env.emptyStore.parse (Env.emptyStore.stringify
            (JVal.obj (AuthService.newUser Env.emptyStore Profile.customer))) =
            some (JVal.obj (AuthService.newUser Env.emptyStore Profile.customer)) := by decide
        rw [h2] at h
        injection h with h
        injection h with h
        rw [h])
      ⟨AuthService.usersUrl Env.emptyStore,
        Env.emptyStore.stringify (JVal.obj (AuthService.newUser Env.emptyStore Profile.customer)),
        AuthService.newUser Env.emptyStore Profile.customer,
        AuthService.newUser Env.emptyStore Profile.customer, [],
        by decide, by decide, by decide, fun _ _ => rfl⟩
      (by decide) (fun _ _ _ => rfl)).1⟩

set_option maxRecDepth 100000 in
/-- C5 as stated fails: a profile under `admin@vetcare.com` with `admin123` is
registered on a store that persists it and returns it for the lookup, and the
following `login` yields a session whose userType is `admin`. And when
`localStorage` accepts no write at the time of the login, the `login` of an
ordinary registered profile returns success=false. -/
theorem register_then_login_admin_counterexample :
    (AuthService.register Env.emptyStore (AuthState.fresh Storage.empty)
        Profile.adminLookalike).2.1.success = true ∧
    persistsPosted Env.emptyStore (Env.storing Profile.adminLookalike)
      (AuthService.register Env.emptyStore (AuthState.fresh Storage.empty)
        Profile.adminLookalike).2.2 (Profile.adminLookalike.get "email").toStr ∧
    (AuthService.login (Env.storing Profile.adminLookalike)
        (AuthService.register Env.emptyStore (AuthState.fresh Storage.empty)
          Profile.adminLookalike).1
        "admin@vetcare.com" "admin123" false).2.1.user =
      some (JVal.obj (AuthService.adminSession (Env.storing Profile.adminLookalike)
        "admin@vetcare.com")) ∧
    (AuthService.adminSession (Env.storing Profile.adminLookalike) "admin@vetcare.com").get
      "userType" ≠ Prim.str "customer" ∧
    (AuthService.login (Env.storing Profile.customer).withFullStore
        (AuthService.register Env.emptyStore (AuthState.fresh Storage.empty) Profile.customer).1
        "carla@example.com" "secret1" false).2.1.success = false :=
  ⟨by decide,
    ⟨AuthService.usersUrl Env.emptyStore,
      Env.emptyStore.stringify
        (JVal.obj (AuthService.newUser Env.emptyStore Profile.adminLookalike)),
      AuthService.newUser Env.emptyStore Profile.adminLookalike,
      AuthService.newUser Env.emptyStore Profile.adminLookalike, [],
      by decide, by decide, by decide, fun _ _ => rfl⟩,
    by decide, by decide, by decide⟩

/-- C6: after `logout()`, on any state and storage, `checkSession()` returns
false and changes nothing, `getCurrentUser()` returns null and
`isUserAuthenticated()` returns false. -/
theorem logout_then_checkSession (env : Env) (a : AuthState) :
    AuthService.checkSession env (AuthService.logout a) = (AuthService.logout a, false) ∧
      AuthService.getCurrentUser (AuthService.checkSession env (AuthService.logout a)).1
        = JVal.null ∧
      AuthService.isUserAuthenticated (AuthService.checkSession env (AuthService.logout a)).1
        = false := by
  have h : AuthService.checkSession env (AuthService.logout a) = (AuthService.logout a, false) := by
    simp [AuthService.checkSession, AuthService.logout, Storage.getItem, Storage.removeItem]
  rw [h]
  exact ⟨rfl, rfl, rfl⟩

/-- C7, as the code has it: when the stored `vetcare_user` value is a non-empty
string that cannot be parsed, `checkSession` returns false after `logout()`:
`currentUser` is null, `isAuthenticated` is false, and the five session keys
are removed from storage. -/
theorem checkSession_corrupted (env : Env) (a : AuthState) (userData : String)
    (hget : a.storage.getItem "vetcare_user" = some userData) (hne : userData ≠ "")
    (hparse : env.parse userData = none) :
    AuthService.checkSession env a = (AuthService.logout a, false) ∧
      (AuthService.checkSession env a).1.currentUser = JVal.null ∧
      (AuthService.checkSession env a).1.isAuthenticated = false ∧
      ∀ key ∈ ["vetcare_user", "userEmail", "userName", "userType", "rememberMe"],
        (AuthService.checkSession env a).1.storage.getItem key = none := by
  have h : AuthService.checkSession env a = (AuthService.logout a, false) := by
    simp [AuthService.checkSession, hget, hne, hparse]
  rw [h]
  refine ⟨rfl, rfl, rfl, ?_⟩
  intro key hkey
  simp only [List.mem_cons, List.mem_singleton, List.not_mem_nil, or_false] at hkey
  rcases hkey with rfl | rfl | rfl | rfl | rfl <;>
    simp [AuthService.logout, Storage.getItem, Storage.removeItem]

/-- C7, instance: the text `{oops` under `vetcare_user`. -/
theorem checkSession_corrupted_witness :
    (AuthState.fresh Storage.corrupted).storage.getItem "vetcare_user" = some "\x7boops" ∧
    Env.offline.parse "\x7boops" = none ∧
    (AuthService.checkSession Env.offline (AuthState.fresh Storage.corrupted)).2 = false ∧
    ∀ key ∈ ["vetcare_user", "userEmail", "userName", "userType", "rememberMe"],
      (AuthService.checkSession Env.offline (AuthState.fresh Storage.corrupted)).1.storage.getItem
        key = none :=
  ⟨by decide, by decide,
    congrArg Prod.snd (checkSession_corrupted Env.offline (AuthState.fresh Storage.corrupted)
      "\x7boops" (by decide) (by decide) (by decide)).1,
    (checkSession_corrupted Env.offline (AuthState.fresh Storage.corrupted)
      "\x7boops" (by decide) (by decide) (by decide)).2.2.2⟩

/-- C7 as stated fails: the empty string stored under `vetcare_user` is present
and is not JSON, yet `checkSession` returns false without `logout()`, and the
`vetcare_user` and `userEmail` keys stay in storage. -/
theorem checkSession_empty_text_counterexample :
    (AuthState.fresh Storage.emptyText).storage.getItem "vetcare_user" = some "" ∧
    Env.offline.parse "" = none ∧
    (AuthService.checkSession Env.offline (AuthState.fresh Storage.emptyText)).2 = false ∧
    (AuthService.checkSession Env.offline (AuthState.fresh Storage.emptyText)).1.storage.getItem
      "vetcare_user" = some "" ∧
    (AuthService.checkSession Env.offline (AuthState.fresh Storage.emptyText)).1.storage.getItem
      "userEmail" = some "carla@example.com" := by
  decide

/-- C8: when storage holds no `vetcare_user` value, `checkSession` returns
false and the whole state (`currentUser`, `isAuthenticated` and every storage
key) is as before the call. -/
theorem checkSession_no_data (env : Env) (a : AuthState)
    (hget : a.storage.getItem "vetcare_user" = none) :
    AuthService.checkSession env a = (a, false) := by
  simp [AuthService.checkSession, hget]

/-- C8, instance: storage that still holds the four other session keys. -/
theorem checkSession_no_data_witness :
    (AuthState.fresh Storage.leftovers).storage.getItem "vetcare_user" = none ∧
    AuthService.checkSession Env.offline (AuthState.fresh Storage.leftovers) =
      (AuthState.fresh Storage.leftovers, false) :=
  ⟨by decide, checkSession_no_data Env.offline (AuthState.fresh Storage.leftovers) (by decide)⟩

/-- The routing table, entry by entry. -/
theorem table_eq (env : Env) :
    Router.table env =
      [("/", Route.page "/index.html" false none),
       ("/login", Route.page "/src/views/login.html" false none),
       ("/register", Route.page "/src/views/register.html" false none),
       ("/dashboard", Route.page "/src/views/dashboard.html" true (some "admin")),
       ("/dashboard-customer",
         Route.page "/src/views/dashboardCustomer.html" true (some "customer")),
       ("/admin", Route.page "/src/views/dashboard.html" true (some "admin")),
       ("/customer", Route.page "/src/views/dashboardCustomer.html" true (some "customer")),
       ("/api/users", Route.api (env.endpoint ++ "/users")),
       ("/api/pets", Route.api (env.endpoint ++ "/pets")),
       ("/api/appointments", Route.api (env.endpoint ++ "/appointments"))] := by
  rfl

/-- The protected entries of the routing table and the roles they require. -/
theorem table_protected (env : Env) (path filePath : String) (userType : Option String)
    (h : mapGet (Router.table env) path = some (Route.page filePath true userType)) :
    (userType = some "admin" ∧ filePath = "/src/views/dashboard.html" ∧
        (path = "/dashboard" ∨ path = "/admin")) ∨
      (userType = some "customer" ∧ filePath = "/src/views/dashboardCustomer.html" ∧
        (path = "/dashboard-customer" ∨ path = "/customer")) := by
  rw [table_eq] at h
  simp only [mapGet] at h
  repeat' split at h
  all_goals simp_all

/-- The effects of `loadPage` contain neither effect of `showAccessDenied`. -/
theorem loadPage_no_access_denied (env : Env) (a : AuthState) (filePath : String)
    (replace : Bool) :
    ∀ e ∈ (Router.loadPage env a filePath replace).2, e ∉ Router.showAccessDenied := by
  intro e he
  unfold Router.loadPage at he
  cases hfetch : env.fetchPage filePath with
  | none =>
    simp only [hfetch, Router.navigateTo404, List.cons_append, List.nil_append, List.mem_cons,
      List.mem_singleton, List.not_mem_nil, or_false] at he
    rcases he with rfl | rfl | rfl <;> cases replace <;> simp [Router.showAccessDenied]
  | some html =>
    simp only [hfetch, List.mem_cons, List.mem_singleton, List.not_mem_nil, or_false] at he
    rcases he with rfl | rfl | rfl | rfl | rfl <;> cases replace <;>
      simp [Router.showAccessDenied]

/-- What `navigate` does on a protected route that requires `admin` or
`customer`, for an authenticated user. -/
theorem navigate_guarded (env : Env) (r : Router) (a : AuthState) (path filePath role : String)
    (replace : Bool)
    (hroute : mapGet r.routes path = some (Route.page filePath true (some role)))
    (hrole : role = "admin" ∨ role = "customer") (hauth : a.isAuthenticated = true) :
    Router.navigate env r a path replace =
      if a.currentUser.getPropOpt "userType" = Prim.str role then
        Router.enterPage env r a path filePath replace
      else { router := r, auth := a, events := Router.showAccessDenied, returned := none } := by
  unfold Router.navigate
  rcases hrole with rfl | rfl
  · by_cases h : a.currentUser.getPropOpt "userType" = Prim.str "admin" <;>
      simp [hroute, AuthService.isUserAuthenticated, AuthService.getCurrentUser, hauth,
        Router.roleRequired, h]
  · by_cases h : a.currentUser.getPropOpt "userType" = Prim.str "customer" <;>
      simp [hroute, AuthService.isUserAuthenticated, AuthService.getCurrentUser, hauth,
        Router.roleRequired, h]

/-- C9: for an authenticated session with userType `admin` and a route that
requires `customer` (`/dashboard-customer`, `/customer`), `navigate` shows the
access-denied notification and schedules the redirect, loads nothing and
leaves the router and the session manager unchanged; the scheduled redirect
is `navigate('/dashboard')`, which enters the admin dashboard, not
`/dashboard-customer`. -/
theorem navigate_admin_on_customer_route (env : Env) (r : Router) (a : AuthState) (o : JObj)
    (path : String) (replace : Bool)
    (hr : r.routes = Router.table env)
    (hpath : path = "/dashboard-customer" ∨ path = "/customer")
    (hauth : a.isAuthenticated = true) (huser : a.currentUser = JVal.obj o)
    (htype : o.get "userType" = Prim.str "admin") :
    Router.navigate env r a path replace =
        { router := r, auth := a,
          events := [Event.showNotification Router.accessDeniedMessage "error",
            Event.setTimeout Timer.accessDeniedRedirect 2000],
          returned := none } ∧
      Router.runTimer env r a Timer.accessDeniedRedirect =
        Router.navigate env r a "/dashboard" false ∧
      Router.navigate env r a "/dashboard" false =
        Router.enterPage env r a "/dashboard" "/src/views/dashboard.html" false ∧
      (Router.runTimer env r a Timer.accessDeniedRedirect).router.currentRoute =
        some "/dashboard" ∧
      (Router.runTimer env r a Timer.accessDeniedRedirect).events.head? =
        some (Event.pushState "/src/views/dashboard.html") := by
  have hget : a.currentUser.getPropOpt "userType" = Prim.str "admin" := by
    rw [huser]; exact htype
  have hdenied : Router.navigate env r a path replace =
      { router := r, auth := a, events := Router.showAccessDenied, returned := none } := by
    have hroute : mapGet r.routes path =
        some (Route.page "/src/views/dashboardCustomer.html" true (some "customer")) := by
      rw [hr, table_eq]
      rcases hpath with rfl | rfl <;> rfl
    rw [navigate_guarded env r a path _ "customer" replace hroute (Or.inr rfl) hauth, hget]
    simp
  have htimer : Router.runTimer env r a Timer.accessDeniedRedirect =
      Router.navigate env r a "/dashboard" false := by
    simp [Router.runTimer, Router.accessDeniedRedirect, AuthService.isAdmin, huser, JVal.truthy,
      JVal.getPropOpt, htype]
  have hdash : Router.navigate env r a "/dashboard" false =
      Router.enterPage env r a "/dashboard" "/src/views/dashboard.html" false := by
    have hroute : mapGet r.routes "/dashboard" =
        some (Route.page "/src/views/dashboard.html" true (some "admin")) := by
      rw [hr, table_eq]; rfl
    rw [navigate_guarded env r a "/dashboard" _ "admin" false hroute (Or.inl rfl) hauth, hget]
    simp
  refine ⟨hdenied, htimer, hdash, ?_, ?_⟩
  · rw [htimer, hdash]; rfl
  · rw [htimer, hdash]
    simp only [Router.enterPage, Router.loadPage]
    cases env.fetchPage "/src/views/dashboard.html" <;> rfl

set_option maxRecDepth 100000 in
/-- C9, instance: a logged-in administrator asks for `/customer`. -/
theorem navigate_admin_on_customer_route_witness :
    AuthState.adminLoggedIn.isAuthenticated = true ∧
    AuthState.adminLoggedIn.currentUser =
      JVal.obj (AuthService.adminSession Env.offline "admin@vetcare.com") ∧
    (Router.navigate Env.offline (Router.setupRoutes Env.offline Router.empty)
        AuthState.adminLoggedIn "/customer" false).events =
      [Event.showNotification Router.accessDeniedMessage "error",
        Event.setTimeout Timer.accessDeniedRedirect 2000] ∧
    (Router.runTimer Env.offline (Router.setupRoutes Env.offline Router.empty)
        AuthState.adminLoggedIn Timer.accessDeniedRedirect).router.currentRoute =
      some "/dashboard" :=
  ⟨by decide, by decide,
    congrArg Router.NavResult.events
      (navigate_admin_on_customer_route Env.offline (Router.setupRoutes Env.offline Router.empty)
        AuthState.adminLoggedIn (AuthService.adminSession Env.offline "admin@vetcare.com")
        "/customer" false rfl (Or.inr rfl) (by decide) (by decide) (by decide)).1,
    (navigate_admin_on_customer_route Env.offline (Router.setupRoutes Env.offline Router.empty)
        AuthState.adminLoggedIn (AuthService.adminSession Env.offline "admin@vetcare.com")
        "/customer" false rfl (Or.inr rfl) (by decide) (by decide) (by decide)).2.2.2.1⟩

/-- C10, as the code has it: for an authenticated session whose userType is
`admin` or `customer`, and a protected route of the table whose required role
differs from it, `navigate` starts the access-denied flow, and the redirect it
schedules enters the dashboard of the session's own role (`/dashboard` for
`admin`, `/dashboard-customer` for `customer`): that navigation passes the
guards, records the route and loads the page, and none of its effects is the
notification or the timer of the access-denied flow. -/
theorem access_denied_fires_once (env : Env) (r : Router) (a : AuthState) (o : JObj)
    (path filePath role : String) (replace : Bool)
    (hr : r.routes = Router.table env)
    (hroute : mapGet (Router.table env) path = some (Route.page filePath true (some role)))
    (hauth : a.isAuthenticated = true) (huser : a.currentUser = JVal.obj o)
    (htype : o.get "userType" = Prim.str "admin" ∨ o.get "userType" = Prim.str "customer")
    (hmismatch : o.get "userType" ≠ Prim.str role) :
    Router.navigate env r a path replace =
        { router := r, auth := a, events := Router.showAccessDenied, returned := none } ∧
      Router.runTimer env r a Timer.accessDeniedRedirect =
        (if o.get "userType" = Prim.str "admin" then
          Router.enterPage env r a "/dashboard" "/src/views/dashboard.html" false
        else
          Router.enterPage env r a "/dashboard-customer" "/src/views/dashboardCustomer.html"
            false) ∧
      ∀ e ∈ (Router.runTimer env r a Timer.accessDeniedRedirect).events,
        e ∉ Router.showAccessDenied := by
  have hget : a.currentUser.getPropOpt "userType" = o.get "userType" := by
    rw [huser]; rfl
  have hrole : role = "admin" ∨ role = "customer" := by
    rcases table_protected env path filePath (some role) hroute with ⟨h, _⟩ | ⟨h, _⟩
    · exact Or.inl (Option.some.inj h)
    · exact Or.inr (Option.some.inj h)
  have hdenied : Router.navigate env r a path replace =
      { router := r, auth := a, events := Router.showAccessDenied, returned := none } := by
    rw [← hr] at hroute
    rw [navigate_guarded env r a path filePath role replace hroute hrole hauth, hget,
      if_neg hmismatch]
  have hdash : mapGet r.routes "/dashboard" =
      some (Route.page "/src/views/dashboard.html" true (some "admin")) := by
    rw [hr, table_eq]; rfl
  have hcust : mapGet r.routes "/dashboard-customer" =
      some (Route.page "/src/views/dashboardCustomer.html" true (some "customer")) := by
    rw [hr, table_eq]; rfl
  have htimer : Router.runTimer env r a Timer.accessDeniedRedirect =
      (if o.get "userType" = Prim.str "admin" then
        Router.enterPage env r a "/dashboard" "/src/views/dashboard.html" false
      else
        Router.enterPage env r a "/dashboard-customer" "/src/views/dashboardCustomer.html"
          false) := by
    rcases htype with h | h
    · have hadm : AuthService.isAdmin a = true := by
        simp [AuthService.isAdmin, huser, JVal.truthy, JVal.getPropOpt, h]
      simp only [Router.runTimer, Router.accessDeniedRedirect, hadm, if_true, h]
      rw [navigate_guarded env r a "/dashboard" _ "admin" false hdash (Or.inl rfl) hauth, hget,
        if_pos h]
    · have hadm : AuthService.isAdmin a = false := by
        simp [AuthService.isAdmin, huser, JVal.truthy, JVal.getPropOpt, h]
      have hne : ¬ (Prim.str "customer" = Prim.str "admin") := by decide
      simp only [Router.runTimer, Router.accessDeniedRedirect, hadm, Bool.false_eq_true,
        if_false, h, hne]
      rw [navigate_guarded env r a "/dashboard-customer" _ "customer" false hcust (Or.inr rfl)
        hauth, hget, if_pos h]
  refine ⟨hdenied, htimer, ?_⟩
  rw [htimer]
  split <;> exact loadPage_no_access_denied env a _ false

set_option maxRecDepth 100000 in
/-- C10, instance: a logged-in customer asks for `/dashboard`. -/
theorem access_denied_fires_once_witness :
    mapGet (Router.table (Env.storing Profile.customer)) "/dashboard" =
      some (Route.page "/src/views/dashboard.html" true (some "admin")) ∧
    AuthState.customerLoggedIn.isAuthenticated = true ∧
    (Router.navigate (Env.storing Profile.customer)
        (Router.setupRoutes (Env.storing Profile.customer) Router.empty)
        AuthState.customerLoggedIn "/dashboard" false).events = Router.showAccessDenied ∧
    (Router.runTimer (Env.storing Profile.customer)
        (Router.setupRoutes (Env.storing Profile.customer) Router.empty)
        AuthState.customerLoggedIn Timer.accessDeniedRedirect).router.currentRoute =
      some "/dashboard-customer" ∧
    ∀ e ∈ (Router.runTimer (Env.storing Profile.customer)
        (Router.setupRoutes (Env.storing Profile.customer) Router.empty)
        AuthState.customerLoggedIn Timer.accessDeniedRedirect).events,
      e ∉ Router.showAccessDenied :=
  ⟨by decide, by decide,
    congrArg Router.NavResult.events
      (access_denied_fires_once (Env.storing Profile.customer)
        (Router.setupRoutes (Env.storing Profile.customer) Router.empty)
        AuthState.customerLoggedIn
        ((AuthService.newUser Env.emptyStore Profile.customer).spread
          [("loginTime", Prim.str (Env.storing Profile.customer).now)])
        "/dashboard" "/src/views/dashboard.html" "admin" false rfl (by decide) (by decide)
        (by decide) (Or.inr (by decide)) (by decide)).1,
    by decide,
    (access_denied_fires_once (Env.storing Profile.customer)
        (Router.setupRoutes (Env.storing Profile.customer) Router.empty)
        AuthState.customerLoggedIn
        ((AuthService.newUser Env.emptyStore Profile.customer).spread
          [("loginTime", Prim.str (Env.storing Profile.customer).now)])
        "/dashboard" "/src/views/dashboard.html" "admin" false rfl (by decide) (by decide)
        (by decide) (Or.inr (by decide)) (by decide)).2.2⟩

set_option maxRecDepth 100000 in
/-- C10 as stated fails: a user whose remote record has the userType `vet`
logs in and asks for `/dashboard`; the access-denied flow starts, and the
redirect it schedules (`navigate('/dashboard-customer')`) starts it again. -/
theorem access_denied_repeats_counterexample :
    (AuthService.login Env.vetRecord (AuthState.fresh Storage.empty) "vet@clinic.com"
        "pets4ever" false).2.1.success = true ∧
    AuthState.vetLoggedIn.isAuthenticated = true ∧
    (Router.navigate Env.vetRecord (Router.setupRoutes Env.vetRecord Router.empty)
        AuthState.vetLoggedIn "/dashboard" false).events = Router.showAccessDenied ∧
    (Router.runTimer Env.vetRecord (Router.setupRoutes Env.vetRecord Router.empty)
        AuthState.vetLoggedIn Timer.accessDeniedRedirect).events = Router.showAccessDenied ∧
    (Router.runTimer Env.vetRecord (Router.setupRoutes Env.vetRecord Router.empty)
        AuthState.vetLoggedIn Timer.accessDeniedRedirect).router.currentRoute = none := by
  decide

/-- A value whose `password` property is a string is a record. -/
theorem obj_of_password (u : JVal) (password : String)
    (h : u.getProp "password" = some (Prim.str password)) :
    ∃ stored, u = JVal.obj stored ∧ stored.get "password" = Prim.str password := by
  cases u with
  | prim p => cases p <;> simp [JVal.getProp] at h
  | obj o =>
    refine ⟨o, rfl, ?_⟩
    simpa [JVal.getProp] using h

/-- The state and the result of a failed lookup in `login`. -/
theorem login_lookup_failed (env : Env) (a : AuthState) (email password : String)
    (rememberMe : Bool) (hadmin : AuthService.isAdminUser env email password = false)
    (hlookup : env.getUsers (AuthService.usersByEmailUrl env email) = none) :
    AuthService.login env a email password rememberMe =
      (a, { success := false, user := none,
            message := "Invalid credentials. Please check your email and password." },
        [Call.get (AuthService.usersByEmailUrl env email)]) := by
  have hv : AuthService.validateCredentials env email password =
      (JVal.null, [Call.get (AuthService.usersByEmailUrl env email)]) := by
    simp [AuthService.validateCredentials, hlookup]
  rw [login_invalid_eq env a email password rememberMe hadmin (by rw [hv]; rfl), hv]

/-- The state and the result of `register` when the `POST` fails. -/
theorem register_post_failed (env : Env) (a : AuthState) (userData : JObj)
    (hpost : (env.postUser (AuthService.usersUrl env)
      (env.stringify (JVal.obj (AuthService.newUser env userData)))).failed = true) :
    (AuthService.register env a userData).1 = a ∧
      ((AuthService.register env a userData).2.1 = AuthService.registrationError ∨
        (AuthService.register env a userData).2.1 =
          { success := false, user := none, message := "This email is already registered." }) := by
  unfold AuthService.register
  split
  · exact ⟨rfl, Or.inr rfl⟩
  · dsimp only
    split
    · exact ⟨rfl, Or.inl rfl⟩
    · exact ⟨rfl, Or.inl rfl⟩
    · exact ⟨rfl, Or.inl rfl⟩
    · rename_i savedUser hp
      rw [hp] at hpost
      simp [PostResponse.failed] at hpost

/-- C11, as the code has it: `login` and `register` always return a result.
When the credential lookup fails (under `envL`), `login` outside the
allow-list returns success=false with the invalid-credentials message and the
state is untouched. When the user `POST` fails (under `envR`: network error,
or a response that is not 2xx), `register` returns success=false with the
registration-error message, or with the already-registered message when the
email lookup found a record, and the state is untouched. When the email
lookup fails (under `envE`), `checkEmailExists` reports the email as not
registered and `register` goes on to the `POST`. The three cases are
independent of each other. -/
theorem remote_failure_results (envL envR envE : Env) (a : AuthState) (email password : String)
    (rememberMe : Bool) (userData : JObj)
    (hadmin : AuthService.isAdminUser envL email password = false)
    (hlookup : envL.getUsers (AuthService.usersByEmailUrl envL email) = none)
    (hpost : (envR.postUser (AuthService.usersUrl envR)
      (envR.stringify (JVal.obj (AuthService.newUser envR userData)))).failed = true)
    (hmail : envE.getUsers (AuthService.usersByEmailUrl envE (userData.get "email").toStr)
      = none) :
    AuthService.login envL a email password rememberMe =
        (a, { success := false, user := none,
              message := "Invalid credentials. Please check your email and password." },
          [Call.get (AuthService.usersByEmailUrl envL email)]) ∧
      (AuthService.register envR a userData).1 = a ∧
      ((AuthService.register envR a userData).2.1 = AuthService.registrationError ∨
        (AuthService.register envR a userData).2.1 =
          { success := false, user := none, message := "This email is already registered." }) ∧
      AuthService.checkEmailExists envE (userData.get "email") =
        (false, [Call.get (AuthService.usersByEmailUrl envE (userData.get "email").toStr)]) ∧
      (AuthService.register envE a userData).2.2 =
        [Call.get (AuthService.usersByEmailUrl envE (userData.get "email").toStr),
         Call.post (AuthService.usersUrl envE)
           (envE.stringify (JVal.obj (AuthService.newUser envE userData)))] := by
  have hc : AuthService.checkEmailExists envE (userData.get "email") =
      (false, [Call.get (AuthService.usersByEmailUrl envE (userData.get "email").toStr)]) := by
    simp [AuthService.checkEmailExists, hmail]
  exact ⟨login_lookup_failed envL a email password rememberMe hadmin hlookup,
    (register_post_failed envR a userData hpost).1, (register_post_failed envR a userData hpost).2,
    hc, register_calls envE a userData (by rw [hc])⟩

set_option maxRecDepth 100000 in
/-- C11, instance: a `login` whose lookup fails, a `register` whose lookup
answers and whose `POST` gets a response that is not 2xx, and a `register`
whose lookup fails while the `POST` is accepted. -/
theorem remote_failure_results_witness :
    AuthService.isAdminUser Env.offline "carla@example.com" "secret1" = false ∧
    Env.offline.getUsers (AuthService.usersByEmailUrl Env.offline "carla@example.com") = none ∧
    Env.postDown.getUsers
        (AuthService.usersByEmailUrl Env.postDown (Profile.customer.get "email").toStr) =
      some [] ∧
    (Env.postDown.postUser (AuthService.usersUrl Env.postDown)
        (Env.postDown.stringify
          (JVal.obj (AuthService.newUser Env.postDown Profile.customer)))).failed = true ∧
    (AuthService.login Env.offline (AuthState.fresh Storage.empty) "carla@example.com" "secret1"
        false).2.1.success = false ∧
    (AuthService.register Env.postDown (AuthState.fresh Storage.empty) Profile.customer).1 =
      AuthState.fresh Storage.empty ∧
    (AuthService.register Env.postDown (AuthState.fresh Storage.empty)
        Profile.customer).2.1.success = false :=
  ⟨by decide, rfl, rfl, rfl,
    congrArg (fun x => x.2.1.success)
      (remote_failure_results Env.offline Env.postDown Env.lookupDown
        (AuthState.fresh Storage.empty) "carla@example.com" "secret1" false Profile.customer
        (by decide) rfl rfl rfl).1,
    (remote_failure_results Env.offline Env.postDown Env.lookupDown
        (AuthState.fresh Storage.empty) "carla@example.com" "secret1" false Profile.customer
        (by decide) rfl rfl rfl).2.1,
    by decide⟩

set_option maxRecDepth 100000 in
/-- C11 as stated fails: the email lookup made by `register` fails, and
`register` still returns success and establishes a session. -/
theorem register_lookup_down_counterexample :
    Env.lookupDown.getUsers
        (AuthService.usersByEmailUrl Env.lookupDown (Profile.customer.get "email").toStr) = none ∧
    (AuthService.register Env.lookupDown (AuthState.fresh Storage.empty)
        Profile.customer).2.1.success = true ∧
    (AuthService.register Env.lookupDown (AuthState.fresh Storage.empty)
        Profile.customer).1.isAuthenticated = true := by
  decide

/-- The session of a successful `login`: the administrator session of the
allow-list, or the first record of the lookup with its own userType. -/
theorem login_session (env : Env) (a : AuthState) (email password : String)
    (rememberMe : Bool)
    (h : (AuthService.login env a email password rememberMe).2.1.success = true) :
    ∃ session,
      (AuthService.login env a email password rememberMe).2.1.user = some (JVal.obj session) ∧
      (AuthService.login env a email password rememberMe).1.currentUser = JVal.obj session ∧
      ((AuthService.isAdminUser env email password = true ∧
          session.get "userType" = Prim.str "admin") ∨
        (AuthService.isAdminUser env email password = false ∧
          ∃ u rest, env.getUsers (AuthService.usersByEmailUrl env email) = some (u :: rest) ∧
            session.get "userType" = u.getPropOpt "userType")) := by
  cases hadmin : AuthService.isAdminUser env email password with
  | true =>
    rw [login_admin_eq env a email password rememberMe hadmin] at h ⊢
    have hok : (AuthService.setSession env a (JVal.obj (AuthService.adminSession env email))
        rememberMe).2 = true := by
      by_contra hne
      simp [hne] at h
    exact ⟨AuthService.adminSession env email, by simp [hok],
      (setSession_assigns env a _ rememberMe).1, Or.inl ⟨rfl, rfl⟩⟩
  | false =>
    cases hv : (AuthService.validateCredentials env email password).1.truthy with
    | false =>
      rw [login_invalid_eq env a email password rememberMe hadmin hv] at h
      simp at h
    | true =>
      have hfirst := hv
      rw [validateCredentials_truthy] at hfirst
      unfold firstRecordMatches at hfirst
      cases hget : env.getUsers (AuthService.usersByEmailUrl env email) with
      | none => simp [hget] at hfirst
      | some users =>
        cases users with
        | nil => simp [hget] at hfirst
        | cons u rest =>
          simp only [hget, beq_iff_eq] at hfirst
          obtain ⟨stored, rfl, hpw⟩ := obj_of_password u password hfirst
          have hvc : AuthService.validateCredentials env email password =
              (JVal.obj stored, [Call.get (AuthService.usersByEmailUrl env email)]) := by
            simp [AuthService.validateCredentials, hget, JVal.getProp, hpw]
          rw [login_validated_eq env a email password rememberMe hadmin hv] at h ⊢
          rw [hvc] at h ⊢
          simp only [JVal.ownFields] at h ⊢
          have hok : (AuthService.setSession env a
              (JVal.obj (stored.spread [("loginTime", Prim.str env.now)])) rememberMe).2
              = true := by
            by_contra hne
            simp [hne] at h
          refine ⟨stored.spread [("loginTime", Prim.str env.now)], by simp [hok],
            (setSession_assigns env a _ rememberMe).1,
            Or.inr ⟨trivial, JVal.obj stored, rest, rfl, ?_⟩⟩
          simp only [JObj.spread, List.foldl, JVal.getPropOpt]
          rw [JObj.get_set_other _ _ _ _ (by decide)]

/-- The session of a successful `register`: the body of the `POST` response. -/
theorem register_session (env : Env) (a : AuthState) (userData : JObj)
    (h : (AuthService.register env a userData).2.1.success = true) :
    ∃ saved,
      env.postUser (AuthService.usersUrl env)
          (env.stringify (JVal.obj (AuthService.newUser env userData))) =
        PostResponse.response true (some saved) ∧
      (AuthService.register env a userData).2.1.user = some saved ∧
      (AuthService.register env a userData).1.currentUser = saved := by
  rcases hc : AuthService.checkEmailExists env (userData.get "email") with ⟨b, calls⟩
  cases b with
  | true => simp [AuthService.register, hc] at h
  | false =>
    cases hp : env.postUser (AuthService.usersUrl env)
        (env.stringify (JVal.obj (AuthService.newUser env userData))) with
    | networkError => simp [AuthService.register, hc, hp, AuthService.registrationError] at h
    | response ok body =>
      cases ok with
      | false => simp [AuthService.register, hc, hp, AuthService.registrationError] at h
      | true =>
        cases body with
        | none => simp [AuthService.register, hc, hp, AuthService.registrationError] at h
        | some saved =>
          have hf := (setSession_assigns env a saved false).1
          rcases hs : AuthService.setSession env a saved false with ⟨a1, okb⟩
          rw [hs] at hf
          cases okb with
          | false => simp [AuthService.register, hc, hp, hs, AuthService.registrationError] at h
          | true =>
            refine ⟨saved, rfl, ?_, ?_⟩
            · simp [AuthService.register, hc, hp, hs]
            · simpa [AuthService.register, hc, hp, hs] using hf

/-- C12, as the code has it: a session established by `login` or by
`register` has the userType `admin` or `customer` provided that the record it
comes from has: the first record of the lookup for `login` outside the
allow-list, the body of the `POST` response for `register`. The session of
the allow-list always has `admin`. -/
theorem session_userType_of_records (envL envR : Env) (a : AuthState)
    (email password : String) (rememberMe : Bool) (userData : JObj)
    (hlogin : (AuthService.login envL a email password rememberMe).2.1.success = true)
    (hreg : (AuthService.register envR a userData).2.1.success = true)
    (hrecL : ∀ u rest, envL.getUsers (AuthService.usersByEmailUrl envL email) = some (u :: rest) →
      u.getPropOpt "userType" = Prim.str "admin" ∨ u.getPropOpt "userType" = Prim.str "customer")
    (hrecR : ∀ saved,
      envR.postUser (AuthService.usersUrl envR)
          (envR.stringify (JVal.obj (AuthService.newUser envR userData))) =
        PostResponse.response true (some saved) →
      saved.getPropOpt "userType" = Prim.str "admin" ∨
        saved.getPropOpt "userType" = Prim.str "customer") :
    ((AuthService.login envL a email password rememberMe).1.currentUser.getPropOpt "userType"
          = Prim.str "admin" ∨
        (AuthService.login envL a email password rememberMe).1.currentUser.getPropOpt "userType"
          = Prim.str "customer") ∧
      (AuthService.login envL a email password rememberMe).2.1.user =
        some (AuthService.login envL a email password rememberMe).1.currentUser ∧
      ((AuthService.register envR a userData).1.currentUser.getPropOpt "userType"
          = Prim.str "admin" ∨
        (AuthService.register envR a userData).1.currentUser.getPropOpt "userType"
          = Prim.str "customer") ∧
      (AuthService.register envR a userData).2.1.user =
        some (AuthService.register envR a userData).1.currentUser := by
  obtain ⟨session, huser, hcur, hkind⟩ := login_session envL a email password rememberMe hlogin
  obtain ⟨saved, hpost, hruser, hrcur⟩ := register_session envR a userData hreg
  refine ⟨?_, by rw [huser, hcur], ?_, by rw [hruser, hrcur]⟩
  · rw [hcur]
    rcases hkind with ⟨_, hadm⟩ | ⟨_, u, rest, hget, htype⟩
    · exact Or.inl hadm
    · simp only [JVal.getPropOpt]
      rw [htype]
      exact hrecL u rest hget
  · rw [hrcur]
    exact hrecR saved hpost

set_option maxRecDepth 100000 in
/-- C12, instance: a registered customer logs in, and a profile is
registered on an empty store. -/
theorem session_userType_of_records_witness :
    (AuthService.login (Env.storing Profile.customer) (AuthState.fresh Storage.empty)
        "carla@example.com" "secret1" false).2.1.success = true ∧
    (AuthService.register Env.emptyStore (AuthState.fresh Storage.empty)
        Profile.customer).2.1.success = true ∧
    (AuthService.login (Env.storing Profile.customer) (AuthState.fresh Storage.empty)
        "carla@example.com" "secret1" false).1.currentUser.getPropOpt "userType"
      = Prim.str "customer" ∧
    ((AuthService.register Env.emptyStore (AuthState.fresh Storage.empty)
          Profile.customer).1.currentUser.getPropOpt "userType" = Prim.str "admin" ∨
      (AuthService.register Env.emptyStore (AuthState.fresh Storage.empty)
          Profile.customer).1.currentUser.getPropOpt "userType" = Prim.str "customer") :=
  ⟨by decide, by decide, by decide,
    (session_userType_of_records (Env.storing Profile.customer) Env.emptyStore
      (AuthState.fresh Storage.empty) "carla@example.com" "secret1" false Profile.customer
      (by decide) (by decide)
      (fun u rest h => by
        have hu : u = JVal.obj (AuthService.newUser Env.emptyStore Profile.customer) := by
          have h2 : (Env.storing Profile.customer).getUsers
              (AuthService.usersByEmailUrl (Env.storing Profile.customer) "carla@example.com") =
              some [JVal.obj (AuthService.newUser Env.emptyStore Profile.customer)] := by decide
          rw [h2] at h
          injection h with h
          injection h with h1 _
          exact h1.symm
        subst hu
        exact Or.inr (by decide))
      (fun saved h => by
        have h2 : Env.emptyStore.postUser (AuthService.usersUrl Env.emptyStore)
            (Env.emptyStore.stringify (JVal.obj (AuthService.newUser Env.emptyStore
              Profile.customer))) =
            PostResponse.response true
              (some (JVal.obj (AuthService.newUser Env.emptyStore Profile.customer))) := by
          decide
        rw [h2] at h
        injection h with _ h
        injection h with h
        subst h
        exact Or.inr (by decide))).2.2.1⟩

set_option maxRecDepth 100000 in
/-- C12 as stated fails: the lookup returns a record whose userType is `vet`,
and the session that `login` establishes has that userType. -/
theorem login_session_vet_counterexample :
    (AuthService.login Env.vetRecord (AuthState.fresh Storage.empty) "vet@clinic.com"
        "pets4ever" false).2.1.success = true ∧
    (AuthService.login Env.vetRecord (AuthState.fresh Storage.empty) "vet@clinic.com"
        "pets4ever" false).1.currentUser.getPropOpt "userType" = Prim.str "vet" ∧
    ¬ ((AuthService.login Env.vetRecord (AuthState.fresh Storage.empty) "vet@clinic.com"
          "pets4ever" false).1.currentUser.getPropOpt "userType" = Prim.str "admin" ∨
      (AuthService.login Env.vetRecord (AuthState.fresh Storage.empty) "vet@clinic.com"
          "pets4ever" false).1.currentUser.getPropOpt "userType" = Prim.str "customer") := by
  decide

/-- Overwriting keeps the own properties. -/
theorem JObj.has_replace (o : JObj) (k k2 : String) (v : Prim) :
    (o.replace k v).has k2 = o.has k2 := by
  induction o with
  | nil => rfl
  | cons kv rest ih =>
    obtain ⟨k1, v1⟩ := kv
    by_cases hk : k1 = k2 <;> simp [JObj.replace, JObj.has, hk, ih]

/-- The own properties of a record with one more entry. -/
theorem JObj.has_append (o : JObj) (k k2 : String) (v : Prim) :
    (o ++ [(k, v)]).has k2 = (o.has k2 || decide (k = k2)) := by
  induction o with
  | nil => by_cases hk : k = k2 <;> simp [JObj.has, hk]
  | cons kv rest ih =>
    obtain ⟨k1, v1⟩ := kv
    by_cases hk : k1 = k2 <;> simp [JObj.has, hk, ih]

/-- The other own properties after `o[k] = v`. -/
theorem JObj.has_set_other (o : JObj) (k k2 : String) (v : Prim) (h : k2 ≠ k) :
    (o.set k v).has k2 = o.has k2 := by
  unfold JObj.set
  by_cases hk : o.has k = true
  · simp [hk, JObj.has_replace]
  · simp [hk, JObj.has_append, Ne.symm h]

/-- The posted record carries the registration date. -/
theorem newUser_registrationDate (env : Env) (userData : JObj) :
    (AuthService.newUser env userData).get "registrationDate" = Prim.str env.now := by
  simp only [AuthService.newUser, JObj.spread, List.foldl]
  rw [JObj.get_set_self]

/-- C13: when the email lookup does not report the email as registered,
`register` posts the JSON text of the profile tagged with userType `customer`
and with the registration date, whatever the profile holds under these two
names; every other property of the profile is in the posted record with its
value, and the posted record has no further property. -/
theorem register_posts_tagged_profile (env : Env) (a : AuthState) (userData : JObj)
    (hnew : (AuthService.checkEmailExists env (userData.get "email")).1 = false) :
    (AuthService.register env a userData).2.2 =
        [Call.get (AuthService.usersByEmailUrl env (userData.get "email").toStr),
         Call.post (AuthService.usersUrl env)
           (env.stringify (JVal.obj (AuthService.newUser env userData)))] ∧
      (AuthService.newUser env userData).get "userType" = Prim.str "customer" ∧
      (AuthService.newUser env userData).get "registrationDate" = Prim.str env.now ∧
      ∀ k, k ≠ "userType" → k ≠ "registrationDate" →
        (AuthService.newUser env userData).get k = userData.get k ∧
          (AuthService.newUser env userData).has k = userData.has k := by
  refine ⟨?_, newUser_userType env userData, newUser_registrationDate env userData, ?_⟩
  · exact register_calls env a userData hnew
  · intro k h1 h2
    simp only [AuthService.newUser, JObj.spread, List.foldl]
    rw [JObj.get_set_other _ _ _ _ h2, JObj.get_set_other _ _ _ _ h1,
      JObj.has_set_other _ _ _ _ h2, JObj.has_set_other _ _ _ _ h1]
    exact ⟨rfl, rfl⟩

set_option maxRecDepth 100000 in
/-- C13, instance: a profile that calls itself an administrator. -/
theorem register_posts_tagged_profile_witness :
    (AuthService.checkEmailExists Env.emptyStore
        (Profile.selfDeclaredAdmin.get "email")).1 = false ∧
    (AuthService.newUser Env.emptyStore Profile.selfDeclaredAdmin).get
        "userType" = Prim.str "customer" ∧
    (AuthService.newUser Env.emptyStore Profile.selfDeclaredAdmin).get
        "phone" = Prim.str "5550101" :=
  ⟨by decide,
    (register_posts_tagged_profile Env.emptyStore (AuthState.fresh Storage.empty)
      Profile.selfDeclaredAdmin (by decide)).2.1,
    by decide⟩

/-- C14, as the code has it: on a store that accepts every write, `setSession`
for a session record returns, `currentUser` is the session, `isAuthenticated`
is true, and storage afterwards holds the JSON text under `vetcare_user`, the
string forms of the email, first name and userType of the session under
`userEmail`, `userName` and `userType` (the strings themselves when these are
strings), and `true` under `rememberMe` when `rememberMe` is true; with
`rememberMe` false the `rememberMe` key is as before, and every other key is
as before in both cases. -/
theorem setSession_frame (env : Env) (a : AuthState) (session : JObj) (rememberMe : Bool)
    (hstore : env.acceptsAll) :
    (AuthService.setSession env a (JVal.obj session) rememberMe).2 = true ∧
      (AuthService.setSession env a (JVal.obj session) rememberMe).1.currentUser =
        JVal.obj session ∧
      (AuthService.setSession env a (JVal.obj session) rememberMe).1.isAuthenticated = true ∧
      (∀ key,
        (AuthService.setSession env a (JVal.obj session) rememberMe).1.storage.getItem key =
          if key = "vetcare_user" then some (env.stringify (JVal.obj session))
          else if key = "userEmail" then some (session.get "email").toStr
          else if key = "userName" then some (session.get "firstName").toStr
          else if key = "userType" then some (session.get "userType").toStr
          else if key = "rememberMe" then
            (if rememberMe = true then some "true" else a.storage.getItem "rememberMe")
          else a.storage.getItem key) ∧
      (∀ email, session.get "email" = Prim.str email →
        (AuthService.setSession env a (JVal.obj session) rememberMe).1.storage.getItem
          "userEmail" = some email) ∧
      (∀ firstName, session.get "firstName" = Prim.str firstName →
        (AuthService.setSession env a (JVal.obj session) rememberMe).1.storage.getItem
          "userName" = some firstName) ∧
      (∀ userType, session.get "userType" = Prim.str userType →
        (AuthService.setSession env a (JVal.obj session) rememberMe).1.storage.getItem
          "userType" = some userType) := by
  have hkeys : ∀ key,
      (AuthService.setSession env a (JVal.obj session) rememberMe).1.storage.getItem key =
        if key = "vetcare_user" then some (env.stringify (JVal.obj session))
        else if key = "userEmail" then some (session.get "email").toStr
        else if key = "userName" then some (session.get "firstName").toStr
        else if key = "userType" then some (session.get "userType").toStr
        else if key = "rememberMe" then
          (if rememberMe = true then some "true" else a.storage.getItem "rememberMe")
        else a.storage.getItem key := by
    intro key
    rw [setSession_record_accepted env a session rememberMe hstore]
    simp only [Storage.getItem]
    cases rememberMe
    · simp only [Bool.false_eq_true, if_false, Storage.insert]
      by_cases h1 : key = "vetcare_user"
      · subst h1; simp
      by_cases h2 : key = "userEmail"
      · subst h2; simp
      by_cases h3 : key = "userName"
      · subst h3; simp
      by_cases h4 : key = "userType"
      · subst h4; simp
      by_cases h5 : key = "rememberMe"
      · subst h5; simp
      simp [h1, h2, h3, h4, h5]
    · simp only [if_true, Storage.insert]
      by_cases h1 : key = "vetcare_user"
      · subst h1; simp
      by_cases h2 : key = "userEmail"
      · subst h2; simp
      by_cases h3 : key = "userName"
      · subst h3; simp
      by_cases h4 : key = "userType"
      · subst h4; simp
      by_cases h5 : key = "rememberMe"
      · subst h5; simp
      simp [h1, h2, h3, h4, h5]
  refine ⟨setSession_obj_ok env a session rememberMe hstore,
    (setSession_assigns env a _ rememberMe).1, (setSession_assigns env a _ rememberMe).2,
    hkeys, ?_, ?_, ?_⟩
  · intro email he
    rw [hkeys "userEmail", he]
    simp [Prim.toStr]
  · intro firstName he
    rw [hkeys "userName", he]
    simp [Prim.toStr]
  · intro userType he
    rw [hkeys "userType", he]
    simp [Prim.toStr]

set_option maxRecDepth 100000 in
/-- C14, instance: the administrator session, without the remember flag, on
storage that holds an old `rememberMe` and a cart. -/
theorem setSession_frame_witness :
    Env.offline.acceptsAll ∧
    (AuthService.setSession Env.offline
        (AuthState.fresh ((Storage.empty.insert "rememberMe" "true").insert "vetcare_cart" "[]"))
        (JVal.obj (AuthService.adminSession Env.offline "admin@vetcare.com"))
        false).1.storage.getItem "userEmail" = some "admin@vetcare.com" ∧
    (AuthService.setSession Env.offline
        (AuthState.fresh ((Storage.empty.insert "rememberMe" "true").insert "vetcare_cart" "[]"))
        (JVal.obj (AuthService.adminSession Env.offline "admin@vetcare.com"))
        false).1.storage.getItem "userName" = some "Administrator" ∧
    (AuthService.setSession Env.offline
        (AuthState.fresh ((Storage.empty.insert "rememberMe" "true").insert "vetcare_cart" "[]"))
        (JVal.obj (AuthService.adminSession Env.offline "admin@vetcare.com"))
        false).1.storage.getItem "userType" = some "admin" ∧
    (AuthService.setSession Env.offline
        (AuthState.fresh ((Storage.empty.insert "rememberMe" "true").insert "vetcare_cart" "[]"))
        (JVal.obj (AuthService.adminSession Env.offline "admin@vetcare.com"))
        false).1.storage.getItem "rememberMe" = some "true" ∧
    (AuthService.setSession Env.offline
        (AuthState.fresh ((Storage.empty.insert "rememberMe" "true").insert "vetcare_cart" "[]"))
        (JVal.obj (AuthService.adminSession Env.offline "admin@vetcare.com"))
        false).1.storage.getItem "vetcare_cart" = some "[]" ∧
    (AuthService.setSession Env.offline (AuthState.fresh Storage.empty)
        (JVal.obj [("email", Prim.num ⟨42, by decide⟩)]) false).1.storage.getItem "userEmail" =
      some "42" :=
  ⟨fun _ _ _ => rfl,
    (setSession_frame Env.offline
      (AuthState.fresh ((Storage.empty.insert "rememberMe" "true").insert "vetcare_cart" "[]"))
      (AuthService.adminSession Env.offline "admin@vetcare.com") false
      (fun _ _ _ => rfl)).2.2.2.2.1 "admin@vetcare.com" rfl,
    by decide, by decide, by decide, by decide, by decide⟩

/-- C14 as stated fails: on a store that accepts no write, `setSession` ends
in the exception of the first `setItem`; the two fields are assigned and no
key is written. -/
theorem setSession_full_store_counterexample :
    (AuthService.setSession Env.offline.withFullStore (AuthState.fresh Storage.empty)
        (JVal.obj (AuthService.adminSession Env.offline "admin@vetcare.com")) false).2 = false ∧
    (AuthService.setSession Env.offline.withFullStore (AuthState.fresh Storage.empty)
        (JVal.obj (AuthService.adminSession Env.offline "admin@vetcare.com"))
        false).1.storage.getItem "vetcare_user" = none ∧
    (AuthService.setSession Env.offline.withFullStore (AuthState.fresh Storage.empty)
        (JVal.obj (AuthService.adminSession Env.offline "admin@vetcare.com"))
        false).1.isAuthenticated = true := by
  decide

/-- C15: for a path that is not a key of the routing table, `navigate` sets
the location to `/index.html` and does nothing else: no page is loaded, no
history entry is written, and the router (with `currentRoute`) and the session
manager are unchanged. -/
theorem navigate_unknown_path (env : Env) (r : Router) (a : AuthState) (path : String)
    (replace : Bool) (hr : r.routes = Router.table env)
    (hroute : mapGet (Router.table env) path = none) :
    Router.navigate env r a path replace =
      { router := r, auth := a, events := [Event.setLocation "/index.html"],
        returned := none } := by
  rw [← hr] at hroute
  simp [Router.navigate, hroute, Router.navigateTo404]

/-- C15, instance: the path `/nope`. -/
theorem navigate_unknown_path_witness :
    mapGet (Router.table Env.offline) "/nope" = none ∧
    Router.navigate Env.offline (Router.setupRoutes Env.offline Router.empty)
        (AuthState.fresh Storage.empty) "/nope" false =
      { router := Router.setupRoutes Env.offline Router.empty,
        auth := AuthState.fresh Storage.empty,
        events := [Event.setLocation "/index.html"], returned := none } :=
  ⟨by decide,
    navigate_unknown_path Env.offline _ (AuthState.fresh Storage.empty) "/nope" false rfl
      (by decide)⟩

/-- C16, as the code has it: at the site root (`/` or `/index.html`) with an
authenticated user that is a record, `handleInitialRoute` calls `navigate`
with `replace` true on `/dashboard` when the userType is `admin` and on
`/dashboard-customer` otherwise; at the site root with no authenticated user
it calls nothing; at every other location it calls `navigate` on that
location with `replace` true. -/
theorem handleInitialRoute_cases (env : Env) (r : Router) (a : AuthState) (location : String)
    (huser : a.isAuthenticated = true → a.currentUser.isObj = true) :
    Router.initialCall a location =
        (if location = "/" ∨ location = "/index.html" then
          if a.isAuthenticated = true then
            if a.currentUser.getPropOpt "userType" = Prim.str "admin" then
              InitialCall.navigate "/dashboard" true
            else InitialCall.navigate "/dashboard-customer" true
          else InitialCall.stay
        else InitialCall.navigate location true) ∧
      Router.handleInitialRoute env r a location =
        (if location = "/" ∨ location = "/index.html" then
          if a.isAuthenticated = true then
            if a.currentUser.getPropOpt "userType" = Prim.str "admin" then
              Router.navigate env r a "/dashboard" true
            else Router.navigate env r a "/dashboard-customer" true
          else { router := r, auth := a, events := [], returned := none }
        else Router.navigate env r a location true) := by
  have hcall : Router.initialCall a location =
      (if location = "/" ∨ location = "/index.html" then
        if a.isAuthenticated = true then
          if a.currentUser.getPropOpt "userType" = Prim.str "admin" then
            InitialCall.navigate "/dashboard" true
          else InitialCall.navigate "/dashboard-customer" true
        else InitialCall.stay
      else InitialCall.navigate location true) := by
    unfold Router.initialCall
    by_cases hroot : location = "/" ∨ location = "/index.html"
    · simp only [hroot, if_true, AuthService.isUserAuthenticated, AuthService.getCurrentUser]
      cases hauth : a.isAuthenticated with
      | false => simp
      | true =>
        have hobj := huser hauth
        cases hcu : a.currentUser with
        | prim p => simp [hcu, JVal.isObj] at hobj
        | obj o => simp [JVal.getProp, JVal.getPropOpt]
    · simp only [hroot, if_false]
  refine ⟨hcall, ?_⟩
  unfold Router.handleInitialRoute
  rw [hcall]
  by_cases hroot : location = "/" ∨ location = "/index.html"
  · simp only [hroot, if_true]
    cases hauth : a.isAuthenticated with
    | false => simp
    | true =>
      by_cases hadm : a.currentUser.getPropOpt "userType" = Prim.str "admin" <;> simp [hadm]
  · simp only [hroot, if_false]

set_option maxRecDepth 100000 in
/-- C16, instance: a logged-in administrator opens `/index.html`. -/
theorem handleInitialRoute_cases_witness :
    (AuthState.adminLoggedIn.isAuthenticated = true →
      AuthState.adminLoggedIn.currentUser.isObj = true) ∧
    Router.initialCall AuthState.adminLoggedIn "/index.html" =
      InitialCall.navigate "/dashboard" true :=
  ⟨fun _ => by decide,
    ((handleInitialRoute_cases Env.offline (Router.setupRoutes Env.offline Router.empty)
      AuthState.adminLoggedIn "/index.html" (fun _ => by decide)).1).trans (by decide)⟩

/-- C16 as stated fails: at the site root with no authenticated user,
`handleInitialRoute` calls `navigate` on nothing and has no effect. -/
theorem handleInitialRoute_root_counterexample :
    (AuthState.fresh Storage.empty).isAuthenticated = false ∧
    Router.initialCall (AuthState.fresh Storage.empty) "/" = InitialCall.stay ∧
    (∀ replace, Router.initialCall (AuthState.fresh Storage.empty) "/" ≠
      InitialCall.navigate "/" replace) ∧
    (Router.handleInitialRoute Env.offline (Router.setupRoutes Env.offline Router.empty)
      (AuthState.fresh Storage.empty) "/").events = [] := by
  decide

/-- The empty pattern matches the empty input only. -/
theorem matchItems_nil (cs : List Char) : matchItems [] cs = true ↔ cs = [] := by
  cases cs <;> simp [matchItems]

/-- A literal consumes exactly its character. -/
theorem matchItems_lit (c : Char) (rest : List RegexItem) (cs : List Char) :
    matchItems (RegexItem.lit c :: rest) cs = true ↔
      ∃ t, cs = c :: t ∧ matchItems rest t = true := by
  cases cs with
  | nil => simp [matchItems]
  | cons x t =>
    simp only [matchItems, Bool.and_eq_true, decide_eq_true_eq, List.cons.injEq]
    constructor
    · rintro ⟨rfl, h⟩
      exact ⟨t, ⟨rfl, rfl⟩, h⟩
    · rintro ⟨t2, ⟨rfl, rfl⟩, h⟩
      exact ⟨rfl, h⟩

/-- A class under `+` consumes a non-empty run of characters of the class. -/
theorem matchItems_plus (cls : Char → Bool) (rest : List RegexItem) (cs : List Char) :
    matchItems (RegexItem.plus cls :: rest) cs = true ↔
      ∃ u t, cs = u ++ t ∧ u ≠ [] ∧ (∀ x ∈ u, cls x = true) ∧ matchItems rest t = true := by
  induction cs with
  | nil =>
    simp only [matchItems, Bool.false_eq_true, false_iff]
    rintro ⟨u, t, h, hu, _⟩
    cases u with
    | nil => exact hu rfl
    | cons y u2 => simp at h
  | cons x t ih =>
    simp only [matchItems, Bool.and_eq_true, Bool.or_eq_true]
    constructor
    · rintro ⟨hx, h | h⟩
      · exact ⟨[x], t, rfl, by simp, by simpa using hx, h⟩
      · obtain ⟨u, t2, rfl, _, hall, hrest⟩ := ih.mp h
        refine ⟨x :: u, t2, rfl, by simp, ?_, hrest⟩
        intro y hy
        rcases List.mem_cons.mp hy with rfl | hy
        · exact hx
        · exact hall y hy
    · rintro ⟨u, t2, h, hu, hall, hrest⟩
      cases u with
      | nil => exact absurd rfl hu
      | cons y u2 =>
        simp only [List.cons_append, List.cons.injEq] at h
        obtain ⟨rfl, rfl⟩ := h
        refine ⟨hall x (List.mem_cons_self _ _), ?_⟩
        cases u2 with
        | nil => left; simpa using hrest
        | cons z u3 =>
          right
          exact ih.mpr ⟨z :: u3, t2, rfl, by simp, fun w hw => hall w (List.mem_cons_of_mem _ hw),
            hrest⟩

/-- The inputs that the pattern of `validateEmail` matches. -/
theorem validateEmail_iff_parts (email : String) :
    AuthService.validateEmail email = true ↔
      ∃ u v w, email.data = u ++ '@' :: (v ++ '.' :: w) ∧ u ≠ [] ∧ v ≠ [] ∧ w ≠ [] ∧
        (∀ x ∈ u, notSpaceOrAt x = true) ∧ (∀ x ∈ v, notSpaceOrAt x = true) ∧
        (∀ x ∈ w, notSpaceOrAt x = true) := by
  unfold AuthService.validateEmail emailRegex
  constructor
  · intro h
    obtain ⟨u, t1, h1, hu, hau, h⟩ := (matchItems_plus _ _ _).mp h
    obtain ⟨t2, rfl, h⟩ := (matchItems_lit _ _ _).mp h
    obtain ⟨v, t3, rfl, hv, hav, h⟩ := (matchItems_plus _ _ _).mp h
    obtain ⟨t4, rfl, h⟩ := (matchItems_lit _ _ _).mp h
    obtain ⟨w, t5, rfl, hw, haw, h⟩ := (matchItems_plus _ _ _).mp h
    have ht5 := (matchItems_nil t5).mp h
    subst ht5
    exact ⟨u, v, w, by simpa using h1, hu, hv, hw, hau, hav, haw⟩
  · rintro ⟨u, v, w, h, hu, hv, hw, hau, hav, haw⟩
    rw [h]
    refine (matchItems_plus _ _ _).mpr ⟨u, _, rfl, hu, hau, ?_⟩
    refine (matchItems_lit _ _ _).mpr ⟨_, rfl, ?_⟩
    refine (matchItems_plus _ _ _).mpr ⟨v, _, rfl, hv, hav, ?_⟩
    refine (matchItems_lit _ _ _).mpr ⟨_, rfl, ?_⟩
    exact (matchItems_plus _ _ _).mpr ⟨w, [], by simp, hw, haw, (matchItems_nil []).mpr rfl⟩

/-- Membership in the class `[^\s@]`. -/
theorem notSpaceOrAt_iff (c : Char) :
    notSpaceOrAt c = true ↔ isWhiteSpace c = false ∧ c ≠ '@' := by
  simp [notSpaceOrAt]

/-- C17: `validateEmail(s)` is true exactly when `s` has the form
`local@domain.tld`: no whitespace, exactly one `@`, a non-empty part before
it, and after it a part that contains a `.` with at least one character on
each side. -/
theorem validateEmail_iff_shape (email : String) :
    AuthService.validateEmail email = true ↔ emailShape email.data := by
  rw [validateEmail_iff_parts]
  unfold emailShape
  constructor
  · rintro ⟨u, v, w, h, hu, hv, hw, hau, hav, haw⟩
    have cu : u.count '@' = 0 :=
      List.count_eq_zero.mpr fun hm => ((notSpaceOrAt_iff _).mp (hau _ hm)).2 rfl
    have cv : v.count '@' = 0 :=
      List.count_eq_zero.mpr fun hm => ((notSpaceOrAt_iff _).mp (hav _ hm)).2 rfl
    have cw : w.count '@' = 0 :=
      List.count_eq_zero.mpr fun hm => ((notSpaceOrAt_iff _).mp (haw _ hm)).2 rfl
    refine ⟨?_, ?_, u, v ++ '.' :: w, h, hu, v, w, rfl, hv, hw⟩
    · intro c hc
      rw [h] at hc
      simp only [List.mem_append, List.mem_cons] at hc
      rcases hc with hc | rfl | hc | rfl | hc
      · exact ((notSpaceOrAt_iff _).mp (hau _ hc)).1
      · decide
      · exact ((notSpaceOrAt_iff _).mp (hav _ hc)).1
      · decide
      · exact ((notSpaceOrAt_iff _).mp (haw _ hc)).1
    · rw [h]
      simp [List.count_append, List.count_cons, cu, cv, cw]
  · rintro ⟨hws, hcount, u, d, h, hu, v, w, rfl, hv, hw⟩
    rw [h] at hcount hws
    simp only [List.count_append, List.count_cons, beq_self_eq_true, if_true] at hcount
    have hdot : (('.' : Char) == '@') = false := by decide
    simp only [hdot, Bool.false_eq_true, if_false] at hcount
    have cu : u.count '@' = 0 := by omega
    have cv : v.count '@' = 0 := by omega
    have cw : w.count '@' = 0 := by omega
    refine ⟨u, v, w, h, hu, hv, hw, ?_, ?_, ?_⟩
    · intro x hx
      refine (notSpaceOrAt_iff x).mpr ⟨hws x (by simp [hx]), ?_⟩
      rintro rfl
      exact List.count_eq_zero.mp cu hx
    · intro x hx
      refine (notSpaceOrAt_iff x).mpr ⟨hws x (by simp [hx]), ?_⟩
      rintro rfl
      exact List.count_eq_zero.mp cv hx
    · intro x hx
      refine (notSpaceOrAt_iff x).mpr ⟨hws x (by simp [hx]), ?_⟩
      rintro rfl
      exact List.count_eq_zero.mp cw hx

/-- C18: for an API entry of the routing table, `navigate` returns the
entry's URL, whatever the state of the session manager: it has no effect (no
page load, no history entry, no redirect, no notification), the session
manager is unchanged and the router only records the path as current route.
The API entries are `/api/users`, `/api/pets` and `/api/appointments`, with
the URLs `${endpoint}/users`, `${endpoint}/pets`, `${endpoint}/appointments`. -/
theorem navigate_api_route (env : Env) (r : Router) (a : AuthState) (path apiUrl : String)
    (replace : Bool) (hr : r.routes = Router.table env)
    (hroute : mapGet (Router.table env) path = some (Route.api apiUrl)) :
    Router.navigate env r a path replace =
        { router := { r with currentRoute := some path }, auth := a, events := [],
          returned := some apiUrl } ∧
      ((path = "/api/users" ∧ apiUrl = env.endpoint ++ "/users") ∨
        (path = "/api/pets" ∧ apiUrl = env.endpoint ++ "/pets") ∨
        (path = "/api/appointments" ∧ apiUrl = env.endpoint ++ "/appointments")) ∧
      mapGet (Router.table env) "/api/users" = some (Route.api (env.endpoint ++ "/users")) ∧
      mapGet (Router.table env) "/api/pets" = some (Route.api (env.endpoint ++ "/pets")) ∧
      mapGet (Router.table env) "/api/appointments" =
        some (Route.api (env.endpoint ++ "/appointments")) := by
  refine ⟨?_, ?_, by rw [table_eq]; rfl, by rw [table_eq]; rfl, by rw [table_eq]; rfl⟩
  · rw [← hr] at hroute
    simp [Router.navigate, hroute]
  · rw [table_eq] at hroute
    simp only [mapGet] at hroute
    repeat' split at hroute
    all_goals simp_all

/-- C18, instance: `/api/pets` for a logged-in administrator. -/
theorem navigate_api_route_witness :
    mapGet (Router.table Env.offline) "/api/pets" =
      some (Route.api "http://localhost:3000/pets") ∧
    (Router.navigate Env.offline (Router.setupRoutes Env.offline Router.empty)
        AuthState.adminLoggedIn "/api/pets" false).returned = some "http://localhost:3000/pets" ∧
    (Router.navigate Env.offline (Router.setupRoutes Env.offline Router.empty)
        AuthState.adminLoggedIn "/api/pets" false).events = [] :=
  ⟨by decide,
    congrArg Router.NavResult.returned
      (navigate_api_route Env.offline (Router.setupRoutes Env.offline Router.empty)
        AuthState.adminLoggedIn "/api/pets" "http://localhost:3000/pets" false rfl
        (by decide)).1,
    congrArg Router.NavResult.events
      (navigate_api_route Env.offline (Router.setupRoutes Env.offline Router.empty)
        AuthState.adminLoggedIn "/api/pets" "http://localhost:3000/pets" false rfl
        (by decide)).1⟩

/-- C19, the code at the failing input: `navigate('/login')` writes the
location `/src/views/login.html` into the history, that location is not a key
of the routing table, and `navigate` on it (what the `popstate` handler and
`handleInitialRoute` run) ends in `navigateTo404()`. No file path of a page
entry is a key of the table. -/
theorem history_location_not_a_route (env : Env) :
    (Router.navigate env (Router.setupRoutes env Router.empty) (AuthState.fresh Storage.empty)
        "/login" false).events.head? = some (Event.pushState "/src/views/login.html") ∧
    mapGet (Router.table env) "/src/views/login.html" = none ∧
    (Router.navigate env (Router.setupRoutes env Router.empty) (AuthState.fresh Storage.empty)
        "/src/views/login.html" true).events = [Event.setLocation "/index.html"] ∧
    Router.initialCall (AuthState.fresh Storage.empty) "/src/views/login.html" =
      InitialCall.navigate "/src/views/login.html" true ∧
    mapGet (Router.table env) "/index.html" = none ∧
    mapGet (Router.table env) "/src/views/register.html" = none ∧
    mapGet (Router.table env) "/src/views/dashboard.html" = none ∧
    mapGet (Router.table env) "/src/views/dashboardCustomer.html" = none := by
  have hroutes : (Router.setupRoutes env Router.empty).routes = Router.table env := rfl
  refine ⟨?_, by rw [table_eq]; rfl, ?_, rfl, by rw [table_eq]; rfl, by rw [table_eq]; rfl,
    by rw [table_eq]; rfl, by rw [table_eq]; rfl⟩
  · have hlogin : mapGet (Router.setupRoutes env Router.empty).routes "/login" =
        some (Route.page "/src/views/login.html" false none) := by
      rw [hroutes, table_eq]; rfl
    simp only [Router.navigate, hlogin, Router.enterPage, Router.loadPage]
    cases env.fetchPage "/src/views/login.html" <;> rfl
  · have hnone : mapGet (Router.setupRoutes env Router.empty).routes "/src/views/login.html" =
        none := by
      rw [hroutes, table_eq]; rfl
    simp [Router.navigate, hnone, Router.navigateTo404]

/-- The text under `vetcare_user` after `setSession`, when the store accepts
the first write. -/
theorem setSession_stored_of_accepted (env : Env) (a : AuthState) (u : JVal)
    (rememberMe : Bool)
    (haccept : env.accepts a.storage "vetcare_user" (env.stringify u) = true) :
    (AuthService.setSession env a u rememberMe).1.storage "vetcare_user" =
      some (env.stringify u) := by
  unfold AuthService.setSession
  simp only [Storage.setItem, haccept, if_true]
  repeat' split
  all_goals simp_all
  all_goals try casesm* _ ∧ _
  all_goals try subst_vars
  all_goals simp [Storage.insert]

/-- C20, as the code has it: when the store accepts the write of
`vetcare_user`, after `setSession(s, rememberMe)` for a session record `s`
whose JSON text parses back to a record with the same properties,
`checkSession()` returns true, `isAuthenticated` is true and `currentUser` is
a record that agrees with `s` on every property; here `JSON.parse` rejects
the empty text. -/
theorem setSession_then_checkSession (env : Env) (a : AuthState) (s parsed : JObj)
    (rememberMe : Bool) (hempty : env.parse "" = none)
    (hparse : env.parse (env.stringify (JVal.obj s)) = some (JVal.obj parsed))
    (hsame : ∀ k, parsed.get k = s.get k)
    (haccept : env.accepts a.storage "vetcare_user" (env.stringify (JVal.obj s)) = true) :
    (AuthService.checkSession env
        (AuthService.setSession env a (JVal.obj s) rememberMe).1).2 = true ∧
      (AuthService.checkSession env
        (AuthService.setSession env a (JVal.obj s) rememberMe).1).1.isAuthenticated = true ∧
      (AuthService.checkSession env
        (AuthService.setSession env a (JVal.obj s) rememberMe).1).1.currentUser =
          JVal.obj parsed ∧
      ∀ k, (AuthService.checkSession env
        (AuthService.setSession env a (JVal.obj s) rememberMe).1).1.currentUser.getPropOpt k =
          s.get k := by
  have hst := setSession_stored_of_accepted env a (JVal.obj s) rememberMe haccept
  have hne : env.stringify (JVal.obj s) ≠ "" := by
    intro h
    rw [h, hempty] at hparse
    cases hparse
  have hcheck : AuthService.checkSession env
      (AuthService.setSession env a (JVal.obj s) rememberMe).1 =
      ({ (AuthService.setSession env a (JVal.obj s) rememberMe).1 with
          currentUser := JVal.obj parsed, isAuthenticated := true }, true) := by
    simp [AuthService.checkSession, Storage.getItem, hst, hne, hparse]
  rw [hcheck]
  exact ⟨rfl, rfl, rfl, fun k => hsame k⟩

set_option maxRecDepth 100000 in
/-- C20, instance: the administrator session with the reference builtins. -/
theorem setSession_then_checkSession_witness :
    Env.offline.parse "" = none ∧
    Env.offline.parse (Env.offline.stringify
        (JVal.obj (AuthService.adminSession Env.offline "admin@vetcare.com"))) =
      some (JVal.obj (AuthService.adminSession Env.offline "admin@vetcare.com")) ∧
    (AuthService.checkSession Env.offline
        (AuthService.setSession Env.offline (AuthState.fresh Storage.empty)
          (JVal.obj (AuthService.adminSession Env.offline "admin@vetcare.com")) true).1).1.currentUser
      = JVal.obj (AuthService.adminSession Env.offline "admin@vetcare.com") :=
  ⟨by decide, by decide,
    (setSession_then_checkSession Env.offline (AuthState.fresh Storage.empty)
      (AuthService.adminSession Env.offline "admin@vetcare.com")
      (AuthService.adminSession Env.offline "admin@vetcare.com") true (by decide) (by decide)
      (fun _ => rfl) rfl).2.2.1⟩

set_option maxRecDepth 100000 in
/-- C20 as stated fails: on a store that accepts no write, `setSession` for
the administrator session, whose JSON text parses back to it, ends in the
exception of `setItem`, and the following `checkSession()` finds no stored
session and returns false. -/
theorem setSession_then_checkSession_full_store_counterexample :
    Env.offline.withFullStore.parse (Env.offline.withFullStore.stringify
        (JVal.obj (AuthService.adminSession Env.offline "admin@vetcare.com"))) =
      some (JVal.obj (AuthService.adminSession Env.offline "admin@vetcare.com")) ∧
    (AuthService.checkSession Env.offline.withFullStore
        (AuthService.setSession Env.offline.withFullStore (AuthState.fresh Storage.empty)
          (JVal.obj (AuthService.adminSession Env.offline "admin@vetcare.com")) false).1).2
      = false := by
  decide

set_option maxRecDepth 100000 in
/-- C21, the code at the failing input: on a store that accepts no write,
`login('admin@vetcare.com', 'admin123')` from the logged-out state returns the
login-error result with success=false, and afterwards `isAuthenticated` is
true and `currentUser` is the administrator session: the fields were assigned
before `setItem` threw. In the same way a failed `login` for the record of
`x@y.com`, made while a customer is logged in, replaces the current user. -/
theorem login_failure_not_atomic :
    (AuthState.fresh Storage.empty).isAuthenticated = false ∧
    (AuthService.login Env.offline.withFullStore (AuthState.fresh Storage.empty)
        "admin@vetcare.com" "admin123" false).2.1 =
      { success := false, user := none, message := "Login error. Please try again." } ∧
    (AuthService.login Env.offline.withFullStore (AuthState.fresh Storage.empty)
        "admin@vetcare.com" "admin123" false).1.isAuthenticated = true ∧
    (AuthService.login Env.offline.withFullStore (AuthState.fresh Storage.empty)
        "admin@vetcare.com" "admin123" false).1.currentUser =
      JVal.obj (AuthService.adminSession Env.offline "admin@vetcare.com") ∧
    (AuthService.login Env.oneRecord.withFullStore AuthState.customerLoggedIn "x@y.com"
        "hunter2" false).2.1.success = false ∧
    AuthState.customerLoggedIn.currentUser.getPropOpt "email" = Prim.str "carla@example.com" ∧
    (AuthService.login Env.oneRecord.withFullStore AuthState.customerLoggedIn "x@y.com"
        "hunter2" false).1.currentUser.getPropOpt "email" = Prim.str "x@y.com" := by
  decide

/-- The ids of the cart after `existingItem.quantity += quantity`. -/
theorem Cart.ids_addQuantity (cart : List CartItem) (id : Prim) (quantity : Quantity) :
    (Cart.addQuantity cart id quantity).map CartItem.id = cart.map CartItem.id := by
  induction cart with
  | nil => rfl
  | cons item rest ih =>
    by_cases h : item.id = id <;> simp [Cart.addQuantity, h, ih]

/-- The ids of the cart after `item.quantity = newQuantity`. -/
theorem Cart.ids_setQuantity (cart : List CartItem) (id : Prim) (newQuantity : Quantity) :
    (Cart.setQuantity cart id newQuantity).map CartItem.id = cart.map CartItem.id := by
  induction cart with
  | nil => rfl
  | cons item rest ih =>
    by_cases h : item.id = id <;> simp [Cart.setQuantity, h, ih]

/-- When `cart.find` finds no item, the id is not in the cart. -/
theorem Cart.not_mem_of_find_none (cart : List CartItem) (id : Prim)
    (h : cart.find? (fun item => item.id = id) = none) : id ∉ cart.map CartItem.id := by
  intro hmem
  obtain ⟨item, hitem, hid⟩ := List.mem_map.mp hmem
  have := List.find?_eq_none.mp h item hitem
  simp [hid] at this

/-- When the id is in the cart, `cart.find` finds an item. -/
theorem Cart.find_some_of_mem (cart : List CartItem) (id : Prim)
    (h : id ∈ cart.map CartItem.id) :
    ∃ item, cart.find? (fun item => item.id = id) = some item := by
  cases hf : cart.find? (fun item => item.id = id) with
  | some item => exact ⟨item, rfl⟩
  | none => exact absurd h (Cart.not_mem_of_find_none cart id hf)

/-- Every call keeps the ids of the cart distinct. -/
theorem Cart.step_nodup (cart : List CartItem) (op : Cart.Op)
    (h : (cart.map CartItem.id).Nodup) : ((Cart.step cart op).map CartItem.id).Nodup := by
  cases op with
  | addToCart currentProduct quantity =>
    cases currentProduct with
    | none => exact h
    | some product =>
      simp only [Cart.step, Cart.addToCart]
      cases hf : cart.find? (fun item => item.id = product.id) with
      | some item =>
        simp only
        rw [Cart.ids_addQuantity]
        exact h
      | none =>
        simp only [List.map_append, List.map_cons, List.map_nil]
        refine List.Nodup.append h (List.nodup_singleton _) ?_
        intro x hx hx2
        rw [List.mem_singleton] at hx2
        subst hx2
        exact Cart.not_mem_of_find_none cart _ hf hx
  | updateCartItemQuantity productId newQuantity =>
    simp only [Cart.step, Cart.updateCartItemQuantity]
    split
    · exact h.sublist (List.Sublist.map _ (List.filter_sublist _))
    · split
      · rw [Cart.ids_setQuantity]
        exact h
      · exact h
  | removeFromCart productId =>
    exact h.sublist (List.Sublist.map _ (List.filter_sublist _))
  | completeOrder => exact List.nodup_nil

/-- After any sequence of calls the ids of the cart are distinct, if they
were before. -/
theorem Cart.run_nodup (ops : List Cart.Op) :
    ∀ cart : List CartItem, (cart.map CartItem.id).Nodup →
      ((Cart.run cart ops).map CartItem.id).Nodup := by
  induction ops with
  | nil => intro cart h; exact h
  | cons op rest ih =>
    intro cart h
    exact ih _ (Cart.step_nodup cart op h)

/-- With distinct ids, the update of the first item with an id is the update
of every item with that id. -/
theorem Cart.addQuantity_eq_map (cart : List CartItem) (id : Prim) (quantity : Quantity)
    (h : (cart.map CartItem.id).Nodup) :
    Cart.addQuantity cart id quantity =
      cart.map (fun item =>
        if item.id = id then { item with quantity := item.quantity.add quantity } else item) := by
  induction cart with
  | nil => rfl
  | cons item rest ih =>
    rw [List.map_cons, List.nodup_cons] at h
    by_cases hid : item.id = id
    · simp only [Cart.addQuantity, hid, if_true, List.map_cons, List.cons.injEq, true_and]
      conv_lhs => rw [← List.map_id rest]
      apply List.map_congr_left
      intro x hx
      have hne : x.id ≠ id := by
        intro hx2
        apply h.1
        rw [hid, ← hx2]
        exact List.mem_map_of_mem _ hx
      simp [hne]
    · simp [Cart.addQuantity, hid, ih h.2]

/-- The number `doubleOverflow` is `2^1024`. -/
theorem doubleOverflow_eq : doubleOverflow = 2 ^ 1024 := by
  norm_num [doubleOverflow]

/-- A sum below `2^53` in magnitude is exact. -/
theorem Quantity.add_exact (a b : Int) (h : (a + b).natAbs < 2 ^ 53) :
    (Quantity.int a).add (Quantity.int b) = Quantity.int (a + b) := by
  simp only [Quantity.add, roundToDouble]
  rw [if_pos h]

/-- C22, as the code has it: starting from the empty cart, after any sequence
of `addToCart`, `updateCartItemQuantity`, `removeFromCart` and
`completeOrder`, no two cart items have the same product id; adding a product
whose id is in the cart changes nothing but the quantity of the item with that
id, which becomes the sum `quantity + added` of JavaScript, so no item is
appended; that sum is the old quantity increased by the added amount whenever
it is below `2^53` in magnitude; and `updateCartItemQuantity` with a new
quantity `<= 0` leaves exactly the items with another id, in their order. -/
theorem cart_invariant (ops : List Cart.Op) :
    ((Cart.run [] ops).map CartItem.id).Nodup ∧
      (∀ (product : Product) (quantity : Quantity),
        product.id ∈ (Cart.run [] ops).map CartItem.id →
        Cart.addToCart (Cart.run [] ops) (some product) quantity =
          (Cart.run [] ops).map (fun item =>
            if item.id = product.id then { item with quantity := item.quantity.add quantity }
            else item)) ∧
      (∀ a b : Int, (a + b).natAbs < 2 ^ 53 →
        (Quantity.int a).add (Quantity.int b) = Quantity.int (a + b)) ∧
      (∀ (productId : Prim) (newQuantity : Quantity), newQuantity.leZero = true →
        Cart.updateCartItemQuantity (Cart.run [] ops) productId newQuantity =
          (Cart.run [] ops).filter (fun item => item.id ≠ productId)) := by
  have hnodup := Cart.run_nodup ops [] List.nodup_nil
  refine ⟨hnodup, ?_, Quantity.add_exact, ?_⟩
  · intro product quantity hmem
    obtain ⟨item, hf⟩ := Cart.find_some_of_mem _ _ hmem
    simp only [Cart.addToCart, hf]
    exact Cart.addQuantity_eq_map _ _ _ hnodup
  · intro productId newQuantity hle
    simp [Cart.updateCartItemQuantity, hle, Cart.removeFromCart]

/-- C22, instance: two products are added, the first one is added again, and
then its quantity is set to zero. -/
theorem cart_invariant_witness :
    Cart.collar.id ∈ (Cart.run []
        [Cart.Op.addToCart (some Cart.collar) (Quantity.int 2),
         Cart.Op.addToCart (some Cart.shampoo) (Quantity.int 1)]).map CartItem.id ∧
    (Cart.addToCart (Cart.run []
          [Cart.Op.addToCart (some Cart.collar) (Quantity.int 2),
           Cart.Op.addToCart (some Cart.shampoo) (Quantity.int 1)])
        (some Cart.collar) (Quantity.int 3)).map (fun item => (item.id, item.quantity)) =
      [(Cart.collar.id, Quantity.int 5), (Cart.shampoo.id, Quantity.int 1)] ∧
    (Cart.updateCartItemQuantity (Cart.run []
          [Cart.Op.addToCart (some Cart.collar) (Quantity.int 2),
           Cart.Op.addToCart (some Cart.shampoo) (Quantity.int 1)])
        Cart.collar.id (Quantity.int 0)).map (fun item => (item.id, item.quantity)) =
      [(Cart.shampoo.id, Quantity.int 1)] :=
  ⟨by decide,
    (congrArg (List.map fun item => (item.id, item.quantity))
      ((cart_invariant
        [Cart.Op.addToCart (some Cart.collar) (Quantity.int 2),
         Cart.Op.addToCart (some Cart.shampoo) (Quantity.int 1)]).2.1 Cart.collar
        (Quantity.int 3) (by decide))).trans (by decide),
    (congrArg (List.map fun item => (item.id, item.quantity))
      ((cart_invariant
        [Cart.Op.addToCart (some Cart.collar) (Quantity.int 2),
         Cart.Op.addToCart (some Cart.shampoo) (Quantity.int 1)]).2.2.2 Cart.collar.id
        (Quantity.int 0) (by decide))).trans (by decide)⟩

/-- C22 as stated fails: a product is in the cart with the quantity
`9007199254740992` (`2^53`); adding it again with the quantity 1 leaves the
quantity at `9007199254740992`, which is not the old quantity increased by
the added amount. -/
theorem cart_quantity_rounding_counterexample :
    (Cart.run [] [Cart.Op.addToCart (some Cart.collar) (Quantity.int 9007199254740992)]).map
        CartItem.quantity = [Quantity.int 9007199254740992] ∧
    (Cart.addToCart
        (Cart.run [] [Cart.Op.addToCart (some Cart.collar) (Quantity.int 9007199254740992)])
        (some Cart.collar) (Quantity.int 1)).map CartItem.quantity =
      [Quantity.int 9007199254740992] ∧
    (9007199254740992 : Int) + 1 ≠ 9007199254740992 := by
  decide

end VetCare
